import Mathlib

/-!
kctf-operator: service / ingress reconciliation

A shallow embedding of
`kctf-operator/pkg/controller/challenge/service/functions.go`
(port validation, the service and ingress comparators, the three converge
functions and `Update`) and of
`kctf-operator/pkg/controller/challenge/deployment/deployment-with-healthcheck.go`
(`withHealthcheck`), followed by theorems about them.

Go `int32` values are embedded as `Int`: the code only compares and copies
them, it never does arithmetic on them.  A Go `error` is embedded as
`Option Error` (`none` is `nil`).  The cluster client is an interface in the
source (`client.Client`); here it is a record of state-passing functions over
an arbitrary cluster state, and every call made through it is appended to a
trace so that statements about "which calls were issued" can be made.
-/

set_option autoImplicit false

namespace Kctf

/-! ## Data model -/

/-- Go `intstr.IntOrString`; `Kind` is the Go field `Type` (0 = Int, 1 = String). -/
structure IntOrString where
  Kind : Nat
  IntVal : Int
  StrVal : String
deriving DecidableEq, Repr

/-- Go `intstr.FromInt`.  The Go function narrows its `int` argument to `int32`; here
the value is kept as it is, and the function is only used at constants that fit. -/
def IntOrString.FromInt (v : Int) : IntOrString := { Kind := 0, IntVal := v, StrVal := "" }

/-- Go `intstr.FromString`: a named port; its `IntVal` is 0. -/
def IntOrString.FromString (v : String) : IntOrString :=
  { Kind := 1, IntVal := 0, StrVal := v }

/-- Go `kctfv1.PortSpec`: one entry of `challenge.Spec.Network.Ports`. -/
structure PortSpec where
  Name : String
  Port : Int
  TargetPort : IntOrString
  Protocol : String
deriving DecidableEq, Repr

/-- Go `kctfv1.NetworkSpec`. -/
structure NetworkSpec where
  Public : Bool
  Ports : List PortSpec
deriving DecidableEq, Repr

/-- Go `kctfv1.HealthcheckSpec`. -/
structure HealthcheckSpec where
  Enabled : Bool
  Image : String
deriving DecidableEq, Repr

/-- Go `kctfv1.ChallengeSpec`, the fields read by the embedded code. -/
structure ChallengeSpec where
  Network : NetworkSpec
  Healthcheck : HealthcheckSpec
deriving DecidableEq, Repr

/-- Go `kctfv1.Challenge`. -/
structure Challenge where
  Name : String
  Namespace : String
  Spec : ChallengeSpec
deriving DecidableEq, Repr

/-- Go `metav1.ObjectMeta`, the fields that matter here plus two server-managed ones. -/
structure ObjectMeta where
  Name : String
  Namespace : String
  Labels : List (String × String)
  Annotations : List (String × String)
  OwnerReferences : List String
  ResourceVersion : String
deriving DecidableEq, Repr

/-- Go `corev1.ServicePort`. -/
structure ServicePort where
  Name : String
  Protocol : String
  Port : Int
  TargetPort : IntOrString
  NodePort : Int
deriving DecidableEq, Repr

/-- Go `corev1.ServiceSpec`. -/
structure ServiceSpec where
  Ports : List ServicePort
  Selector : List (String × String)
  ClusterIP : String
  Kind : String
deriving DecidableEq, Repr

/-- Go `corev1.Service`; `Status` stands for the server-written status block. -/
structure Service where
  ObjectMeta : ObjectMeta
  Spec : ServiceSpec
  Status : String
deriving DecidableEq, Repr

/-- Go `netv1beta1.IngressBackend`. -/
structure IngressBackend where
  ServiceName : String
  ServicePort : IntOrString
deriving DecidableEq, Repr

/-- Go `netv1beta1.IngressSpec`: `Backend` is a pointer (`none` is `nil`); `TLS` and
`Rules` are kept as lists of host names, which is all the comparator needs in order
to tell two values apart. -/
structure IngressSpec where
  Backend : Option IngressBackend
  TLS : List String
  Rules : List String
deriving DecidableEq, Repr

/-- Go `netv1beta1.Ingress`. -/
structure Ingress where
  ObjectMeta : ObjectMeta
  Spec : IngressSpec
  Status : String
deriving DecidableEq, Repr

/-- A Go `error` value as far as the embedded code can tell errors apart: the two
errors built by `checkPortsValid`, the API "not found" error recognised by
`errors.IsNotFound`, and any other error of a collaborator. -/
inductive Error where
  | onlyOneHTTPS
  | conflictingPortMapping (externalPort existingPort targetPort : Int)
  | notFound
  | other (msg : String)
deriving DecidableEq, Repr

/-- Go `errors.IsNotFound`. -/
def Error.IsNotFound : Error → Bool
  | .notFound => true
  | _ => false

/-! ## Port validation -/

/-- The resolved external port of a mapping: `port.Port`, or the target port when
`port.Port` is 0 (lines 190-194 of the source). -/
def resolvedExternalPort (port : PortSpec) : Int :=
  if port.Port = 0 then port.TargetPort.IntVal else port.Port

/-- Two mappings agree when they do not send one resolved external port to two
different target ports. -/
def PortSpec.agrees (p q : PortSpec) : Prop :=
  resolvedExternalPort p = resolvedExternalPort q → p.TargetPort.IntVal = q.TargetPort.IntVal

/-- The body of the `for` loop of `checkPortsValid`, with the two loop-carried
variables `seenHTTPSPort` and `ports` (a Go map, here an association list whose
first binding of a key is the current one).  The source never assigns
`seenHTTPSPort` inside the loop, so it is passed on unchanged. -/
def checkPortsLoop : List PortSpec → Bool → List (Int × Int) → Option Error
  | [], _, _ => none
  | port :: rest, seenHTTPSPort, ports =>
    if port.Protocol = "HTTPS" ∧ seenHTTPSPort = true then
      some Error.onlyOneHTTPS
    else
      let targetPort := port.TargetPort.IntVal
      let externalPort := if port.Port = 0 then targetPort else port.Port
      match ports.lookup externalPort with
      | some existingPort =>
        if existingPort ≠ targetPort then
          some (Error.conflictingPortMapping externalPort existingPort targetPort)
        else
          checkPortsLoop rest seenHTTPSPort ((externalPort, targetPort) :: ports)
      | none =>
        checkPortsLoop rest seenHTTPSPort ((externalPort, targetPort) :: ports)

/-- Go `checkPortsValid`. -/
def checkPortsValid (challenge : Challenge) : Option Error :=
  checkPortsLoop challenge.Spec.Network.Ports false []

/-! ## Comparators and port copying -/

/-- The `for i := range found` loop of `equalPorts`, run after the length check. -/
def equalPortsLoop : List ServicePort → List ServicePort → Bool
  | f :: fs, w :: ws =>
    if f.Name ≠ w.Name ∨ f.Protocol ≠ w.Protocol ∨ f.Port ≠ w.Port ∨
        f.TargetPort ≠ w.TargetPort then
      false
    else
      equalPortsLoop fs ws
  | _, _ => true

/-- Go `equalPorts`. -/
def equalPorts (found wanted : List ServicePort) : Bool :=
  if found.length ≠ wanted.length then false else equalPortsLoop found wanted

/-- Go `isServiceEqual`. -/
def isServiceEqual (serviceFound serv : Service) : Bool :=
  equalPorts serviceFound.Spec.Ports serv.Spec.Ports

/-- Go `isIngressEqual`: `reflect.DeepEqual` of the two `Spec` values.  A Go slice is
a list here, so a nil slice and an empty one are the same value, which
`reflect.DeepEqual` tells apart: where `reflect.DeepEqual` answers true this
function answers true as well. -/
def isIngressEqual (ingressFound ingress : Ingress) : Bool :=
  decide (ingressFound.Spec = ingress.Spec)

/-- Go `copyPorts`: the updated `found`; `wanted` is only read. -/
def copyPorts (found wanted : Service) : Service :=
  { found with Spec := { found.Spec with Ports := [] ++ wanted.Spec.Ports } }

/-! ## The cluster client -/

/-- Go `types.NamespacedName`. -/
structure NamespacedName where
  Name : String
  Namespace : String
deriving DecidableEq, Repr

/-- The objects the embedded code sends to the cluster (`runtime.Object` in Go). -/
inductive Object where
  | service (s : Service)
  | ingress (i : Ingress)
deriving DecidableEq, Repr

/-- One call on the cluster client, as recorded in the trace. -/
inductive Call where
  | getService (key : NamespacedName)
  | getIngress (key : NamespacedName)
  | create (obj : Object)
  | update (obj : Object)
  | delete (obj : Object)
deriving DecidableEq, Repr

/-- The calls that change the cluster: create, update and delete. -/
def Call.isMutating : Call → Bool
  | .getService _ => false
  | .getIngress _ => false
  | .create _ => true
  | .update _ => true
  | .delete _ => true

/-- Go `client.Client`, the four methods the source calls, over a cluster state `σ`.
`Get` is split by the type of the object it fills in; it returns the object when
the Go call returns a `nil` error, and the error otherwise. -/
structure Client (σ : Type) where
  GetService : NamespacedName → σ → Except Error Service × σ
  GetIngress : NamespacedName → σ → Except Error Ingress × σ
  Create : Object → σ → Option Error × σ
  Update : Object → σ → Option Error × σ
  Delete : Object → σ → Option Error × σ

/-- The state threaded through the embedded code: the cluster and the trace of the
client calls issued so far, oldest first. -/
structure World (σ : Type) where
  cluster : σ
  trace : List Call

/-- Call `client.Get` for a service and record it. -/
def clientGetService {σ : Type} (client : Client σ) (key : NamespacedName) (w : World σ) :
    Except Error Service × World σ :=
  ((client.GetService key w.cluster).1,
    { cluster := (client.GetService key w.cluster).2,
      trace := w.trace ++ [Call.getService key] })

/-- Call `client.Get` for an ingress and record it. -/
def clientGetIngress {σ : Type} (client : Client σ) (key : NamespacedName) (w : World σ) :
    Except Error Ingress × World σ :=
  ((client.GetIngress key w.cluster).1,
    { cluster := (client.GetIngress key w.cluster).2,
      trace := w.trace ++ [Call.getIngress key] })

/-- Call `client.Create` and record it. -/
def clientCreate {σ : Type} (client : Client σ) (obj : Object) (w : World σ) :
    Option Error × World σ :=
  ((client.Create obj w.cluster).1,
    { cluster := (client.Create obj w.cluster).2, trace := w.trace ++ [Call.create obj] })

/-- Call `client.Update` and record it. -/
def clientUpdate {σ : Type} (client : Client σ) (obj : Object) (w : World σ) :
    Option Error × World σ :=
  ((client.Update obj w.cluster).1,
    { cluster := (client.Update obj w.cluster).2, trace := w.trace ++ [Call.update obj] })

/-- Call `client.Delete` and record it. -/
def clientDelete {σ : Type} (client : Client σ) (obj : Object) (w : World σ) :
    Option Error × World σ :=
  ((client.Delete obj w.cluster).1,
    { cluster := (client.Delete obj w.cluster).2, trace := w.trace ++ [Call.delete obj] })

/-- The calls issued between an earlier world `w` and a later world `w1`. -/
def issued {σ : Type} (w w1 : World σ) : List Call :=
  w1.trace.drop w.trace.length

/-- The functions the source calls that live outside the two embedded files: the
three desired-object builders of the same package, `utils.GetDomainName` (a read
of the cluster) and `controllerutil.SetControllerReference` (which returns the
object metadata with the owner reference set, and an error the callers drop). -/
structure Collaborators (σ : Type) where
  generateNodePortService : Challenge → Service
  generateLoadBalancerService : String → Challenge → Service
  generateIngress : String → Challenge → Ingress
  GetDomainName : Challenge → σ → String
  SetControllerReference : Challenge → ObjectMeta → ObjectMeta × Option Error

/-! ## The converge functions -/

/-- Go `updateInternalService`; the result is `(changed, err)` and the new world. -/
def updateInternalService {σ : Type} (k : Collaborators σ) (client : Client σ)
    (challenge : Challenge) (w : World σ) : (Bool × Option Error) × World σ :=
  let newService := k.generateNodePortService challenge
  let got := clientGetService client
    { Name := newService.ObjectMeta.Name, Namespace := newService.ObjectMeta.Namespace } w
  match got.1 with
  | .error err =>
    if err.IsNotFound = false then
      ((false, some err), got.2)
    else
      let newService : Service :=
        { newService with
          ObjectMeta := (k.SetControllerReference challenge newService.ObjectMeta).1 }
      let created := clientCreate client (Object.service newService) got.2
      match created.1 with
      | some err => ((false, some err), created.2)
      | none => ((true, none), created.2)
  | .ok existingService =>
    if isServiceEqual existingService newService = true then
      ((false, none), got.2)
    else
      let existingService := copyPorts existingService newService
      let updated := clientUpdate client (Object.service existingService) got.2
      match updated.1 with
      | some err => ((false, some err), updated.2)
      | none => ((true, none), updated.2)

/-- Go `updateIngress`. -/
def updateIngress {σ : Type} (k : Collaborators σ) (client : Client σ)
    (challenge : Challenge) (w : World σ) : (Bool × Option Error) × World σ :=
  let got := clientGetIngress client
    { Name := challenge.Name, Namespace := challenge.Namespace } w
  match got.1 with
  | .error err =>
    if err.IsNotFound = false then
      ((false, some err), got.2)
    else
      let domainName := k.GetDomainName challenge got.2.cluster
      let newIngress := k.generateIngress domainName challenge
      if newIngress.Spec.Backend = none ∨ challenge.Spec.Network.Public = false then
        ((false, none), got.2)
      else
        let newIngress : Ingress :=
          { newIngress with
            ObjectMeta := (k.SetControllerReference challenge newIngress.ObjectMeta).1 }
        let created := clientCreate client (Object.ingress newIngress) got.2
        ((true, created.1), created.2)
  | .ok existingIngress =>
    let domainName := k.GetDomainName challenge got.2.cluster
    let newIngress := k.generateIngress domainName challenge
    if newIngress.Spec.Backend = none ∨ challenge.Spec.Network.Public = false then
      let deleted := clientDelete client (Object.ingress existingIngress) got.2
      ((true, deleted.1), deleted.2)
    else if isIngressEqual existingIngress newIngress = true then
      ((false, none), got.2)
    else
      let existingIngress : Ingress :=
        { existingIngress with
          Spec := { existingIngress.Spec with Backend := newIngress.Spec.Backend }
          ObjectMeta :=
            { existingIngress.ObjectMeta with
              Annotations := newIngress.ObjectMeta.Annotations } }
      let updated := clientUpdate client (Object.ingress existingIngress) got.2
      ((true, updated.1), updated.2)

/-- Go `updateLoadBalancerService`. -/
def updateLoadBalancerService {σ : Type} (k : Collaborators σ) (client : Client σ)
    (challenge : Challenge) (w : World σ) : (Bool × Option Error) × World σ :=
  let got := clientGetService client
    { Name := challenge.Name ++ "-lb-service", Namespace := challenge.Namespace } w
  match got.1 with
  | .error err =>
    if err.IsNotFound = false then
      ((false, some err), got.2)
    else
      let domainName := k.GetDomainName challenge got.2.cluster
      let newService := k.generateLoadBalancerService domainName challenge
      if newService.Spec.Ports.length = 0 ∨ challenge.Spec.Network.Public = false then
        ((false, none), got.2)
      else
        let newService : Service :=
          { newService with
            ObjectMeta := (k.SetControllerReference challenge newService.ObjectMeta).1 }
        let created := clientCreate client (Object.service newService) got.2
        ((true, created.1), created.2)
  | .ok existingService =>
    let domainName := k.GetDomainName challenge got.2.cluster
    let newService := k.generateLoadBalancerService domainName challenge
    if newService.Spec.Ports.length = 0 ∨ challenge.Spec.Network.Public = false then
      let deleted := clientDelete client (Object.service existingService) got.2
      ((true, deleted.1), deleted.2)
    else if isServiceEqual existingService newService = true then
      ((false, none), got.2)
    else
      let existingService := copyPorts existingService newService
      let existingService : Service :=
        { existingService with
          ObjectMeta :=
            { existingService.ObjectMeta with
              Annotations := newService.ObjectMeta.Annotations } }
      let updated := clientUpdate client (Object.service existingService) got.2
      ((true, updated.1), updated.2)

/-- Go `Update`: validate the ports, then converge the internal service, the
load-balancer service and the ingress, in that order. -/
def Update {σ : Type} (k : Collaborators σ) (client : Client σ)
    (challenge : Challenge) (w : World σ) : (Bool × Option Error) × World σ :=
  let changed := false
  match checkPortsValid challenge with
  | some err => ((false, some err), w)
  | none =>
    let internal := updateInternalService k client challenge w
    match internal.1.2 with
    | some err => ((false, some err), internal.2)
    | none =>
      let changed := changed || internal.1.1
      let loadBalancer := updateLoadBalancerService k client challenge internal.2
      match loadBalancer.1.2 with
      | some err => ((false, some err), loadBalancer.2)
      | none =>
        let changed := changed || loadBalancer.1.1
        let ingress := updateIngress k client challenge loadBalancer.2
        match ingress.1.2 with
        | some err => ((false, some err), ingress.2)
        | none =>
          let changed := changed || ingress.1.1
          ((changed, none), ingress.2)

/-! ## A concrete cluster: a store that returns what was last written -/

/-- A cluster holding services and ingresses, and the domain configured for the
challenges (the empty string when none is configured). -/
structure Cluster where
  services : List Service
  ingresses : List Ingress
  domainName : String
deriving DecidableEq, Repr

/-- Does the object metadata carry this name and namespace? -/
def ObjectMeta.hasKey (m : ObjectMeta) (key : NamespacedName) : Bool :=
  decide (m.Name = key.Name) && decide (m.Namespace = key.Namespace)

/-- The name and namespace of an object. -/
def ObjectMeta.key (m : ObjectMeta) : NamespacedName :=
  { Name := m.Name, Namespace := m.Namespace }

/-- The store as a client: `Get` finds the object by name and namespace or reports
"not found"; `Create` adds an object whose key is free; `Update` replaces and
`Delete` removes the object stored under the key, and both report "not found"
when there is none. -/
def storeClient : Client Cluster where
  GetService key c :=
    match c.services.find? (fun s => s.ObjectMeta.hasKey key) with
    | some s => (Except.ok s, c)
    | none => (Except.error Error.notFound, c)
  GetIngress key c :=
    match c.ingresses.find? (fun i => i.ObjectMeta.hasKey key) with
    | some i => (Except.ok i, c)
    | none => (Except.error Error.notFound, c)
  Create obj c :=
    match obj with
    | Object.service s =>
      if c.services.any (fun t => t.ObjectMeta.hasKey s.ObjectMeta.key) = true then
        (some (Error.other "already exists"), c)
      else
        (none, { c with services := c.services ++ [s] })
    | Object.ingress i =>
      if c.ingresses.any (fun t => t.ObjectMeta.hasKey i.ObjectMeta.key) = true then
        (some (Error.other "already exists"), c)
      else
        (none, { c with ingresses := c.ingresses ++ [i] })
  Update obj c :=
    match obj with
    | Object.service s =>
      if c.services.any (fun t => t.ObjectMeta.hasKey s.ObjectMeta.key) = true then
        (none, { c with
          services := c.services.map
            (fun t => if t.ObjectMeta.hasKey s.ObjectMeta.key = true then s else t) })
      else
        (some Error.notFound, c)
    | Object.ingress i =>
      if c.ingresses.any (fun t => t.ObjectMeta.hasKey i.ObjectMeta.key) = true then
        (none, { c with
          ingresses := c.ingresses.map
            (fun t => if t.ObjectMeta.hasKey i.ObjectMeta.key = true then i else t) })
      else
        (some Error.notFound, c)
  Delete obj c :=
    match obj with
    | Object.service s =>
      if c.services.any (fun t => t.ObjectMeta.hasKey s.ObjectMeta.key) = true then
        (none, { c with
          services := c.services.filter (fun t => !t.ObjectMeta.hasKey s.ObjectMeta.key) })
      else
        (some Error.notFound, c)
    | Object.ingress i =>
      if c.ingresses.any (fun t => t.ObjectMeta.hasKey i.ObjectMeta.key) = true then
        (none, { c with
          ingresses :=
            c.ingresses.filter (fun t => !t.ObjectMeta.hasKey i.ObjectMeta.key) })
      else
        (some Error.notFound, c)

/-- A client that answers every call selected by `fails` with the error `err` and
leaves the cluster alone there; every other call goes to `client`. -/
def failOn {σ : Type} (fails : Call → Bool) (err : Error) (client : Client σ) : Client σ where
  GetService key c :=
    if fails (Call.getService key) = true then (Except.error err, c)
    else client.GetService key c
  GetIngress key c :=
    if fails (Call.getIngress key) = true then (Except.error err, c)
    else client.GetIngress key c
  Create obj c :=
    if fails (Call.create obj) = true then (some err, c) else client.Create obj c
  Update obj c :=
    if fails (Call.update obj) = true then (some err, c) else client.Update obj c
  Delete obj c :=
    if fails (Call.delete obj) = true then (some err, c) else client.Delete obj c

/-! ## Desired-object builders used for concrete runs -/

/-- Object metadata with a name, a namespace and nothing else. -/
def ObjectMeta.named (name namespace_ : String) : ObjectMeta :=
  { Name := name, Namespace := namespace_, Labels := [], Annotations := [],
    OwnerReferences := [], ResourceVersion := "" }

/-- Modelled from the spec: `generateNodePortService` is not among the source files.
The spec (4.2) describes the internal service as "exposing every PortMapping's
target port, named deterministically from the parent resource's identity". -/
def generateNodePortService (challenge : Challenge) : Service :=
  { ObjectMeta := ObjectMeta.named challenge.Name challenge.Namespace
    Spec :=
      { Ports := challenge.Spec.Network.Ports.map (fun port =>
          { Name := port.Name, Protocol := port.Protocol, Port := port.TargetPort.IntVal,
            TargetPort := port.TargetPort, NodePort := 0 })
        Selector := [("app", challenge.Name)]
        ClusterIP := ""
        Kind := "NodePort" }
    Status := "" }

/-- Modelled from the spec: `generateLoadBalancerService` is not among the source
files.  The spec (4.2) describes it as "an externally-reachable service; its port
list is the subset of PortMapping entries appropriate for external exposure (empty
if none apply), named `<parent>-lb-service`"; the entries kept here are those whose
protocol is not HTTPS, exposed on their resolved external port. -/
def generateLoadBalancerService (domainName : String) (challenge : Challenge) : Service :=
  { ObjectMeta :=
      { ObjectMeta.named (challenge.Name ++ "-lb-service") challenge.Namespace with
        Annotations := if domainName = "" then [] else [("hostname", domainName)] }
    Spec :=
      { Ports := (challenge.Spec.Network.Ports.filter
            (fun port => decide (port.Protocol ≠ "HTTPS"))).map (fun port =>
          { Name := port.Name, Protocol := port.Protocol, Port := resolvedExternalPort port,
            TargetPort := port.TargetPort, NodePort := 0 })
        Selector := [("app", challenge.Name)]
        ClusterIP := ""
        Kind := "LoadBalancer" }
    Status := "" }

/-- Modelled from the spec: `generateIngress` is not among the source files.  The
spec (4.2, 6) describes an ingress that "carries a backend reference (service name
+ port) derived from the HTTPS or primary port mapping, or nil backend if no
suitable mapping exists", and none when no domain name is available; the backend
here is taken from the first HTTPS mapping. -/
def generateIngress (domainName : String) (challenge : Challenge) : Ingress :=
  { ObjectMeta := ObjectMeta.named challenge.Name challenge.Namespace
    Spec :=
      { Backend :=
          if domainName = "" then none
          else
            (challenge.Spec.Network.Ports.find?
              (fun port => decide (port.Protocol = "HTTPS"))).map
              (fun port => { ServiceName := challenge.Name, ServicePort := port.TargetPort })
        TLS := []
        Rules := [] }
    Status := "" }

/-- Modelled from the spec: `utils.GetDomainName` is not among the source files; the
spec (6) gives it as `resolve(parentResource)`, here the domain the cluster is
configured with. -/
def GetDomainName (_challenge : Challenge) (c : Cluster) : String :=
  c.domainName

/-- Go `controllerutil.SetControllerReference` (controller-runtime): records the
challenge as the controlling owner; it fails, leaving the object as it is, when the
object already has an owner. -/
def SetControllerReference (challenge : Challenge) (m : ObjectMeta) :
    ObjectMeta × Option Error :=
  if m.OwnerReferences = [] then
    ({ m with OwnerReferences := [challenge.Name] }, none)
  else
    (m, some (Error.other "already owned"))

/-- The collaborators above, over the concrete cluster. -/
def collaborators : Collaborators Cluster where
  generateNodePortService := generateNodePortService
  generateLoadBalancerService := generateLoadBalancerService
  generateIngress := generateIngress
  GetDomainName := GetDomainName
  SetControllerReference := SetControllerReference

/-- A world with the given cluster and no call issued yet. -/
def World.fresh {σ : Type} (c : σ) : World σ :=
  { cluster := c, trace := [] }

/-! ## Concrete inputs -/

/-- A port mapping with an integer target port. -/
def PortSpec.make (name protocol : String) (port targetPort : Int) : PortSpec :=
  { Name := name, Port := port, TargetPort := IntOrString.FromInt targetPort,
    Protocol := protocol }

/-- A challenge named `chal` in namespace `default` with the given exposure. -/
def Challenge.make (isPublic : Bool) (ports : List PortSpec) : Challenge :=
  { Name := "chal", Namespace := "default",
    Spec :=
      { Network := { Public := isPublic, Ports := ports }
        Healthcheck := { Enabled := false, Image := "" } } }

/-- Two HTTPS mappings on different external ports. -/
def twoHTTPSPorts : Challenge :=
  Challenge.make true
    [PortSpec.make "web" "HTTPS" 443 8443, PortSpec.make "admin" "HTTPS" 444 8444]

/-- A mapping with external port 0 and target port 0, and a second one with
external port 0 and target port 5. -/
def zeroTargetPorts : Challenge :=
  Challenge.make true [PortSpec.make "a" "TCP" 0 0, PortSpec.make "b" "TCP" 0 5]

/-- Two mappings of the external port 8080, to the named target ports `http` and
`metrics`. -/
def namedTargetPorts : Challenge :=
  Challenge.make true
    [{ Name := "a", Port := 8080, TargetPort := IntOrString.FromString "http",
       Protocol := "TCP" },
     { Name := "b", Port := 8080, TargetPort := IntOrString.FromString "metrics",
       Protocol := "TCP" }]

/-- A mapping with external port 0 and target port 1337, and a second one with
external port 1337 and target port 80. -/
def derivedConflictPorts : Challenge :=
  Challenge.make true [PortSpec.make "a" "TCP" 0 1337, PortSpec.make "b" "TCP" 1337 80]

/-- One TCP mapping exposed directly and one HTTPS mapping. -/
def tcpAndHTTPS : Challenge :=
  Challenge.make true [PortSpec.make "pwn" "TCP" 0 1337, PortSpec.make "web" "HTTPS" 443 8443]

/-- The four fields of a service port that `equalPorts` reads. -/
def ServicePort.compared (p : ServicePort) : String × String × Int × IntOrString :=
  (p.Name, p.Protocol, p.Port, p.TargetPort)

/-- A cluster with no objects and no domain configured. -/
def emptyCluster : Cluster :=
  { services := [], ingresses := [], domainName := "" }

/-- One TCP mapping exposed directly on its target port 1337. -/
def tcpOnly : Challenge :=
  Challenge.make true [PortSpec.make "pwn" "TCP" 0 1337]

/-- The calls that create the load-balancer service of the challenge `chal`. -/
def createsLoadBalancer : Call → Bool
  | Call.create (Object.service s) => decide (s.ObjectMeta.Name = "chal-lb-service")
  | _ => false

/-- The create calls. -/
def isCreate : Call → Bool
  | Call.create _ => true
  | _ => false

/-- The error a failing cluster write returns in the concrete runs. -/
def forbidden : Error := Error.other "forbidden"

/-! ## Names for the intermediate values of the converge functions -/

/-- The key under which `updateInternalService` looks the service up. -/
def internalServiceKey {σ : Type} (k : Collaborators σ) (challenge : Challenge) :
    NamespacedName :=
  { Name := (k.generateNodePortService challenge).ObjectMeta.Name,
    Namespace := (k.generateNodePortService challenge).ObjectMeta.Namespace }

/-- The key under which `updateLoadBalancerService` looks the service up. -/
def loadBalancerKey (challenge : Challenge) : NamespacedName :=
  { Name := challenge.Name ++ "-lb-service", Namespace := challenge.Namespace }

/-- The key under which `updateIngress` looks the ingress up. -/
def ingressKey (challenge : Challenge) : NamespacedName :=
  { Name := challenge.Name, Namespace := challenge.Namespace }

/-- The `newService` of `updateLoadBalancerService`: built with the domain name
read after the `Get`. -/
def desiredLoadBalancer {σ : Type} (k : Collaborators σ) (client : Client σ)
    (challenge : Challenge) (w : World σ) : Service :=
  k.generateLoadBalancerService
    (k.GetDomainName challenge (clientGetService client (loadBalancerKey challenge) w).2.cluster)
    challenge

/-- The `newIngress` of `updateIngress`: built with the domain name read after the
`Get`. -/
def desiredIngress {σ : Type} (k : Collaborators σ) (client : Client σ)
    (challenge : Challenge) (w : World σ) : Ingress :=
  k.generateIngress
    (k.GetDomainName challenge (clientGetIngress client (ingressKey challenge) w).2.cluster)
    challenge

/-- The load-balancer service should exist: the challenge is public and the desired
port list is not empty (the negation of the test on lines 153 and 170). -/
def loadBalancerShouldExist {σ : Type} (k : Collaborators σ) (client : Client σ)
    (challenge : Challenge) (w : World σ) : Bool :=
  challenge.Spec.Network.Public &&
    decide ((desiredLoadBalancer k client challenge w).Spec.Ports.length ≠ 0)

/-- The ingress should exist: the challenge is public and the desired backend is not
nil (the negation of the test on lines 107 and 123). -/
def ingressShouldExist {σ : Type} (k : Collaborators σ) (client : Client σ)
    (challenge : Challenge) (w : World σ) : Bool :=
  challenge.Spec.Network.Public &&
    (desiredIngress k client challenge w).Spec.Backend.isSome

/-- One HTTPS mapping: external port 443, target port 8443. -/
def httpsOnly : Challenge :=
  Challenge.make true [PortSpec.make "web" "HTTPS" 443 8443]

/-- The challenge `tcpOnly`, not public. -/
def tcpPrivate : Challenge :=
  Challenge.make false [PortSpec.make "pwn" "TCP" 0 1337]

/-- An ingress for the challenge `chal` that carries a rule for another host and no
backend, as left behind by an earlier deployment. -/
def ingressWithRule : Ingress :=
  { ObjectMeta := ObjectMeta.named "chal" "default"
    Spec := { Backend := none, TLS := [], Rules := ["old.ctf.example.com"] }
    Status := "" }

/-- A cluster with a domain configured, holding only `ingressWithRule`. -/
def clusterWithRule : Cluster :=
  { services := [], ingresses := [ingressWithRule], domainName := "ctf.example.com" }

/-- The cluster reached from `emptyCluster` by one pass of `Update` for `tcpOnly`:
it holds the internal service and the load-balancer service of the challenge. -/
def clusterAfterTcpOnly : Cluster :=
  (Update collaborators storeClient tcpOnly (World.fresh emptyCluster)).2.cluster

/-- The internal service `Update` creates for `tcpOnly`. -/
def storedInternalService : Service :=
  { generateNodePortService tcpOnly with
    ObjectMeta :=
      (SetControllerReference tcpOnly (generateNodePortService tcpOnly).ObjectMeta).1 }

/-- The load-balancer service `Update` creates for `tcpOnly` when no domain is
configured. -/
def storedLoadBalancer : Service :=
  { generateLoadBalancerService "" tcpOnly with
    ObjectMeta :=
      (SetControllerReference tcpOnly (generateLoadBalancerService "" tcpOnly).ObjectMeta).1 }

/-- The cluster `clusterAfterTcpOnly` once a domain has been configured: the stored
load-balancer service has the desired ports but not the desired annotations. -/
def clusterWithDomain : Cluster :=
  { clusterAfterTcpOnly with domainName := "ctf.example.com" }

/-- The ingress `updateIngress` sends to the cluster for `httpsOnly` when it observes
`ingressWithRule`: the observed ingress with the desired backend. -/
def sentIngress : Ingress :=
  { ingressWithRule with
    Spec :=
      { ingressWithRule.Spec with
        Backend := some { ServiceName := "chal", ServicePort := IntOrString.FromInt 8443 } } }

/-- A service for `tcpOnly` left over with another port, a cluster IP and a status
written by the server. -/
def staleInternalService : Service :=
  { ObjectMeta :=
      { ObjectMeta.named "chal" "default" with
        OwnerReferences := ["chal"], ResourceVersion := "41" }
    Spec :=
      { Ports := [{ Name := "pwn", Protocol := "TCP", Port := 31337,
                    TargetPort := IntOrString.FromInt 31337, NodePort := 30001 }]
        Selector := [("app", "chal")]
        ClusterIP := "10.0.0.7"
        Kind := "NodePort" }
    Status := "active" }

/-- A cluster holding only `staleInternalService`. -/
def clusterWithStaleService : Cluster :=
  { services := [staleInternalService], ingresses := [], domainName := "" }

/-! ## The three steps of one run of `Update`, and the errors its calls returned -/

/-- The internal-service step of `Update`, run on the initial world. -/
def internalStep {σ : Type} (k : Collaborators σ) (client : Client σ)
    (challenge : Challenge) (w : World σ) : (Bool × Option Error) × World σ :=
  updateInternalService k client challenge w

/-- The load-balancer step of `Update`, run on the world the internal-service step
leaves. -/
def loadBalancerStep {σ : Type} (k : Collaborators σ) (client : Client σ)
    (challenge : Challenge) (w : World σ) : (Bool × Option Error) × World σ :=
  updateLoadBalancerService k client challenge (internalStep k client challenge w).2

/-- The ingress step of `Update`, run on the world the load-balancer step leaves. -/
def ingressStep {σ : Type} (k : Collaborators σ) (client : Client σ)
    (challenge : Challenge) (w : World σ) : (Bool × Option Error) × World σ :=
  updateIngress k client challenge (loadBalancerStep k client challenge w).2

/-- The calls that concern an ingress: a get of an ingress, or a write of one. -/
def Call.onIngress : Call → Bool
  | Call.getIngress _ => true
  | Call.create (Object.ingress _) => true
  | Call.update (Object.ingress _) => true
  | Call.delete (Object.ingress _) => true
  | _ => false

/-- The failure, if any, with which the client answers one call in a given cluster
state, and the state it leaves.  A get answered "not found" is not a failure: it
tells the caller that the object is absent. -/
def Call.perform {σ : Type} (client : Client σ) (c : Call) (s : σ) : Option Error × σ :=
  match c with
  | Call.getService key =>
    (match (client.GetService key s).1 with
      | Except.error err => if err.IsNotFound = true then none else some err
      | Except.ok _ => none,
      (client.GetService key s).2)
  | Call.getIngress key =>
    (match (client.GetIngress key s).1 with
      | Except.error err => if err.IsNotFound = true then none else some err
      | Except.ok _ => none,
      (client.GetIngress key s).2)
  | Call.create obj => client.Create obj s
  | Call.update obj => client.Update obj s
  | Call.delete obj => client.Delete obj s

/-- The failures with which the client answers a sequence of calls issued one after
the other from a given cluster state, and the state the sequence leaves. -/
def clientErrors {σ : Type} (client : Client σ) : List Call → σ → List Error × σ
  | [], s => ([], s)
  | c :: cs, s =>
    ((Call.perform client c s).1.toList ++
        (clientErrors client cs (Call.perform client c s).2).1,
      (clientErrors client cs (Call.perform client c s).2).2)

/-- The collaborators of the concrete runs with an ownership setter that fails,
leaving the object as it is, as it does when the kind of the owner is not registered
in the scheme. -/
def collaboratorsUnregistered : Collaborators Cluster :=
  { collaborators with
    SetControllerReference := fun _ m => (m, some (Error.other "no kind is registered")) }

/-! ## Ownership -/

/-- The metadata of an object. -/
def Object.ObjectMeta : Object → ObjectMeta
  | Object.service s => s.ObjectMeta
  | Object.ingress i => i.ObjectMeta

/-- The collaborators `k` with another ownership setter. -/
def withOwnerSetter {σ : Type} (k : Collaborators σ)
    (setter : Challenge → ObjectMeta → ObjectMeta × Option Error) : Collaborators σ :=
  { k with SetControllerReference := setter }

/-! ## Deployments (`deployment-with-healthcheck.go`) -/

/-- Go `corev1.HTTPGetAction`. -/
structure HTTPGetAction where
  Path : String
  Port : IntOrString
deriving DecidableEq, Repr

/-- Go `corev1.Handler`. -/
structure Handler where
  Exec : Option (List String)
  HTTPGet : Option HTTPGetAction
  TCPSocket : Option IntOrString
deriving DecidableEq, Repr

/-- Go `corev1.Probe`. -/
structure Probe where
  Handler : Handler
  InitialDelaySeconds : Int
  TimeoutSeconds : Int
  PeriodSeconds : Int
  SuccessThreshold : Int
  FailureThreshold : Int
deriving DecidableEq, Repr

/-- Go `resource.Quantity`, as the number of thousandths it stands for. -/
structure Quantity where
  MilliValue : Int
  Format : String
deriving DecidableEq, Repr

/-- Go `resource.NewMilliQuantity`. -/
def Quantity.NewMilliQuantity (value : Int) (format : String) : Quantity :=
  { MilliValue := value, Format := format }

/-- Go `corev1.ResourceRequirements`; a `ResourceList` is a map from resource names
to quantities, here an association list. -/
structure ResourceRequirements where
  Limits : List (String × Quantity)
  Requests : List (String × Quantity)
deriving DecidableEq, Repr

/-- Go `corev1.VolumeMount`. -/
structure VolumeMount where
  Name : String
  ReadOnly : Bool
  MountPath : String
  SubPath : String
deriving DecidableEq, Repr

/-- Go `corev1.Container`. -/
structure Container where
  Name : String
  Image : String
  Command : List String
  Args : List String
  Env : List (String × String)
  Resources : ResourceRequirements
  VolumeMounts : List VolumeMount
  LivenessProbe : Option Probe
  ReadinessProbe : Option Probe
deriving DecidableEq, Repr

/-- Go `corev1.SecretVolumeSource`. -/
structure SecretVolumeSource where
  SecretName : String
deriving DecidableEq, Repr

/-- Go `corev1.VolumeSource`. -/
structure VolumeSource where
  Secret : Option SecretVolumeSource
  ConfigMap : Option String
deriving DecidableEq, Repr

/-- Go `corev1.Volume`. -/
structure Volume where
  Name : String
  VolumeSource : VolumeSource
deriving DecidableEq, Repr

/-- Go `corev1.PodSpec`. -/
structure PodSpec where
  Containers : List Container
  Volumes : List Volume
  ServiceAccountName : String
deriving DecidableEq, Repr

/-- Go `corev1.PodTemplateSpec`. -/
structure PodTemplateSpec where
  ObjectMeta : ObjectMeta
  Spec : PodSpec
deriving DecidableEq, Repr

/-- Go `appsv1.DeploymentSpec`. -/
structure DeploymentSpec where
  Replicas : Int
  Template : PodTemplateSpec
deriving DecidableEq, Repr

/-- Go `appsv1.Deployment`. -/
structure Deployment where
  ObjectMeta : ObjectMeta
  Spec : DeploymentSpec
deriving DecidableEq, Repr

/-- The Go value `corev1.Container{Name: name}`: every other field has its zero
value. -/
def Container.named (name : String) : Container :=
  { Name := name, Image := "", Command := [], Args := [], Env := [],
    Resources := { Limits := [], Requests := [] }, VolumeMounts := [],
    LivenessProbe := none, ReadinessProbe := none }

/-- Modelled from the spec: `utils.IndexOfContainer` is not among the source files.
The spec (4.2) has it "locate the container named" so and so, and the source tests
its result against -1 (line 45): the index of the first container with the name, or
-1 when there is none. -/
def IndexOfContainer (name : String) (containers : List Container) : Int :=
  if containers.findIdx (fun c => decide (c.Name = name)) < containers.length then
    (containers.findIdx (fun c => decide (c.Name = name)) : Int)
  else
    -1

/-- The Go assignment `containers[i].field = value` for a Go `int` index `i`: the
slice with its element `i` changed by `f`, or `none` for the run-time panic "index
out of range" when `i` is negative or not below the length. -/
def assignAt (containers : List Container) (i : Int) (f : Container → Container) :
    Option (List Container) :=
  if 0 ≤ i ∧ i < (containers.length : Int) then
    some (containers.modify f i.toNat)
  else
    none

/-- Go `withHealthcheck`.  `deployment` is the base-deployment builder of the same
package, which is not among the source files; `none` is a run-time panic. -/
def withHealthcheck (deployment : Challenge → Deployment) (challenge : Challenge) :
    Option Deployment :=
  let dep := deployment challenge
  let idx_challenge := IndexOfContainer "challenge" dep.Spec.Template.Spec.Containers
  let idx_healthcheck := IndexOfContainer "healthcheck" dep.Spec.Template.Spec.Containers
  (assignAt dep.Spec.Template.Spec.Containers idx_challenge (fun c =>
    { c with
      LivenessProbe := some
        { Handler :=
            { Exec := none
              HTTPGet := some { Path := "/healthz", Port := IntOrString.FromInt 45281 }
              TCPSocket := none }
          InitialDelaySeconds := 45
          TimeoutSeconds := 3
          PeriodSeconds := 30
          SuccessThreshold := 0
          FailureThreshold := 2 } })).bind fun containers =>
  (assignAt containers idx_challenge (fun c =>
    { c with
      ReadinessProbe := some
        { Handler :=
            { Exec := none
              HTTPGet := some { Path := "/healthz", Port := IntOrString.FromInt 45281 }
              TCPSocket := none }
          InitialDelaySeconds := 5
          TimeoutSeconds := 3
          PeriodSeconds := 5
          SuccessThreshold := 0
          FailureThreshold := 0 } })).bind fun containers =>
  let appended :=
    if idx_healthcheck = -1 then containers ++ [Container.named "healthcheck"]
    else containers
  let idx_healthcheck :=
    if idx_healthcheck = -1 then (appended.length : Int) - 1 else idx_healthcheck
  (assignAt appended idx_healthcheck (fun c =>
    { c with Image := challenge.Spec.Healthcheck.Image })).bind fun containers =>
  (assignAt containers idx_healthcheck (fun c =>
    { c with
      Resources :=
        { Limits := [("cpu", Quantity.NewMilliQuantity 1000 "DecimalSI")]
          Requests := [("cpu", Quantity.NewMilliQuantity 50 "DecimalSI")] } })).bind
    fun containers =>
  (assignAt containers idx_healthcheck (fun c =>
    { c with
      VolumeMounts :=
        [{ Name := "pow-bypass", ReadOnly := true, MountPath := "/pow-bypass",
           SubPath := "" }] })).bind fun containers =>
  let healthcheckVolume : Volume :=
    { Name := "pow-bypass"
      VolumeSource := { Secret := some { SecretName := "pow-bypass" }, ConfigMap := none } }
  some
    { dep with
      Spec :=
        { dep.Spec with
          Template :=
            { dep.Spec.Template with
              Spec :=
                { dep.Spec.Template.Spec with
                  Containers := containers
                  Volumes := dep.Spec.Template.Spec.Volumes ++ [healthcheckVolume] } } } }

/-- A base deployment with the given containers and volumes. -/
def Deployment.make (containers : List Container) (volumes : List Volume) : Deployment :=
  { ObjectMeta := ObjectMeta.named "chal" "default"
    Spec :=
      { Replicas := 1
        Template :=
          { ObjectMeta := ObjectMeta.named "" ""
            Spec :=
              { Containers := containers, Volumes := volumes,
                ServiceAccountName := "" } } } }

/-- The challenge `tcpOnly` with a healthcheck image. -/
def withImage : Challenge :=
  { tcpOnly with
    Spec := { tcpOnly.Spec with Healthcheck := { Enabled := true, Image := "hc:1" } } }

/-- A challenge container as a base deployment has it. -/
def challengeContainer : Container :=
  { Container.named "challenge" with Image := "chal:1", Command := ["/run"] }

/-- A base deployment with a sidecar, the challenge container and one volume. -/
def baseDeployment (_challenge : Challenge) : Deployment :=
  Deployment.make [Container.named "proxy", challengeContainer]
    [{ Name := "data", VolumeSource := { Secret := none, ConfigMap := some "data" } }]

/-- A base deployment that already has a healthcheck container, before the
challenge container. -/
def baseWithHealthcheck (_challenge : Challenge) : Deployment :=
  Deployment.make
    [{ Container.named "healthcheck" with Image := "old:0", Command := ["/check"] },
      challengeContainer] []

/-- A base deployment without a challenge container. -/
def baseWithoutChallenge (_challenge : Challenge) : Deployment :=
  Deployment.make [Container.named "proxy"] []

/-- The two assignments to the challenge container (lines 20-43) as one function. -/
def withProbes (c : Container) : Container :=
  { c with
    LivenessProbe := some
      { Handler :=
          { Exec := none
            HTTPGet := some { Path := "/healthz", Port := IntOrString.FromInt 45281 }
            TCPSocket := none }
        InitialDelaySeconds := 45
        TimeoutSeconds := 3
        PeriodSeconds := 30
        SuccessThreshold := 0
        FailureThreshold := 2 }
    ReadinessProbe := some
      { Handler :=
          { Exec := none
            HTTPGet := some { Path := "/healthz", Port := IntOrString.FromInt 45281 }
            TCPSocket := none }
        InitialDelaySeconds := 5
        TimeoutSeconds := 3
        PeriodSeconds := 5
        SuccessThreshold := 0
        FailureThreshold := 0 } }

/-- The three assignments to the healthcheck container (lines 53-67) as one
function. -/
def configured (image : String) (c : Container) : Container :=
  { c with
    Image := image
    Resources :=
      { Limits := [("cpu", Quantity.NewMilliQuantity 1000 "DecimalSI")]
        Requests := [("cpu", Quantity.NewMilliQuantity 50 "DecimalSI")] }
    VolumeMounts :=
      [{ Name := "pow-bypass", ReadOnly := true, MountPath := "/pow-bypass",
         SubPath := "" }] }

/-- The index of the first container with the name, or the length of the list. -/
def firstNamed (name : String) (containers : List Container) : Nat :=
  containers.findIdx (fun c => decide (c.Name = name))

/-- The container list `withHealthcheck` builds from a list that has a challenge
container, in closed form. -/
def injected (image : String) (containers : List Container) : List Container :=
  if firstNamed "healthcheck" containers < containers.length then
    (containers.modify withProbes (firstNamed "challenge" containers)).modify
      (configured image) (firstNamed "healthcheck" containers)
  else
    containers.modify withProbes (firstNamed "challenge" containers) ++
      [configured image (Container.named "healthcheck")]

/-! ## Port validation: lemmas -/

theorem lookup_cons_self (k v : Int) (l : List (Int × Int)) :
    List.lookup k ((k, v) :: l) = some v := by
  simp [List.lookup]

theorem lookup_cons_of_ne (k a v : Int) (l : List (Int × Int)) (h : k ≠ a) :
    List.lookup k ((a, v) :: l) = List.lookup k l := by
  have : (k == a) = false := by simpa using h
  simp [List.lookup, this]

theorem checkPortsLoop_cons_false (port : PortSpec) (rest : List PortSpec)
    (ports : List (Int × Int)) :
    checkPortsLoop (port :: rest) false ports =
      match ports.lookup (resolvedExternalPort port) with
      | some existingPort =>
        if existingPort ≠ port.TargetPort.IntVal then
          some (Error.conflictingPortMapping (resolvedExternalPort port) existingPort
            port.TargetPort.IntVal)
        else
          checkPortsLoop rest false
            ((resolvedExternalPort port, port.TargetPort.IntVal) :: ports)
      | none =>
        checkPortsLoop rest false
          ((resolvedExternalPort port, port.TargetPort.IntVal) :: ports) := by
  simp [checkPortsLoop, resolvedExternalPort]

/-- With the HTTPS flag unset, the loop succeeds exactly when the remaining mappings
agree with the recorded ones and with each other. -/
theorem checkPortsLoop_eq_none_iff (rest : List PortSpec) :
    ∀ ports : List (Int × Int),
      checkPortsLoop rest false ports = none ↔
        (∀ q ∈ rest, ∀ v, ports.lookup (resolvedExternalPort q) = some v →
            v = q.TargetPort.IntVal) ∧
          rest.Pairwise PortSpec.agrees := by
  induction rest with
  | nil => intro ports; simp [checkPortsLoop]
  | cons p rest ih =>
    intro ports
    rw [checkPortsLoop_cons_false]
    have step : checkPortsLoop rest false
          ((resolvedExternalPort p, p.TargetPort.IntVal) :: ports) = none ↔
        ((∀ q ∈ rest, PortSpec.agrees p q) ∧
          (∀ q ∈ rest, resolvedExternalPort q ≠ resolvedExternalPort p →
            ∀ v, ports.lookup (resolvedExternalPort q) = some v →
              v = q.TargetPort.IntVal)) ∧ rest.Pairwise PortSpec.agrees := by
      rw [ih]
      constructor
      · rintro ⟨h1, h2⟩
        refine ⟨⟨?_, ?_⟩, h2⟩
        · intro q hq heq
          have := h1 q hq p.TargetPort.IntVal (by rw [← heq, lookup_cons_self])
          exact this
        · intro q hq hne v hv
          exact h1 q hq v (by rw [lookup_cons_of_ne _ _ _ _ hne]; exact hv)
      · rintro ⟨⟨h1, h2⟩, h3⟩
        refine ⟨?_, h3⟩
        intro q hq v hv
        by_cases heq : resolvedExternalPort q = resolvedExternalPort p
        · rw [heq, lookup_cons_self] at hv
          have := h1 q hq heq.symm
          rw [← this]; exact (Option.some.inj hv).symm
        · rw [lookup_cons_of_ne _ _ _ _ heq] at hv
          exact h2 q hq heq v hv
    cases hl : ports.lookup (resolvedExternalPort p) with
    | none =>
      simp only []
      rw [step, List.pairwise_cons]
      constructor
      · rintro ⟨⟨h1, h2⟩, h3⟩
        refine ⟨?_, h1, h3⟩
        intro q hq v hv
        rcases List.mem_cons.1 hq with rfl | hq
        · rw [hl] at hv; cases hv
        · by_cases heq : resolvedExternalPort q = resolvedExternalPort p
          · rw [heq, hl] at hv; cases hv
          · exact h2 q hq heq v hv
      · rintro ⟨h1, h2, h3⟩
        exact ⟨⟨h2, fun q hq _ v hv => h1 q (List.mem_cons_of_mem _ hq) v hv⟩, h3⟩
    | some existingPort =>
      simp only []
      by_cases hex : existingPort = p.TargetPort.IntVal
      · rw [if_neg (not_not.2 hex), step, List.pairwise_cons]
        constructor
        · rintro ⟨⟨h1, h2⟩, h3⟩
          refine ⟨?_, h1, h3⟩
          intro q hq v hv
          rcases List.mem_cons.1 hq with rfl | hq
          · rw [hl] at hv; rw [← hex]; exact (Option.some.inj hv).symm
          · by_cases heq : resolvedExternalPort q = resolvedExternalPort p
            · rw [heq, hl] at hv
              rw [← h1 q hq heq.symm, ← hex]; exact (Option.some.inj hv).symm
            · exact h2 q hq heq v hv
        · rintro ⟨h1, h2, h3⟩
          exact ⟨⟨h2, fun q hq _ v hv => h1 q (List.mem_cons_of_mem _ hq) v hv⟩, h3⟩
      · rw [if_pos hex]
        constructor
        · intro h; cases h
        · rintro ⟨h1, _⟩
          exact absurd (h1 p (List.mem_cons_self _ _) existingPort hl) hex

/-- With the HTTPS flag unset, the only error the loop can return is a conflicting
port mapping. -/
theorem checkPortsLoop_error (rest : List PortSpec) :
    ∀ (ports : List (Int × Int)) (e : Error), checkPortsLoop rest false ports = some e →
      ∃ x a b, e = Error.conflictingPortMapping x a b := by
  induction rest with
  | nil => intro ports e h; simp [checkPortsLoop] at h
  | cons p rest ih =>
    intro ports e h
    rw [checkPortsLoop_cons_false] at h
    cases hl : ports.lookup (resolvedExternalPort p) with
    | none => rw [hl] at h; exact ih _ _ h
    | some existingPort =>
      rw [hl] at h
      simp only [] at h
      by_cases hex : existingPort = p.TargetPort.IntVal
      · rw [if_neg (not_not.2 hex)] at h; exact ih _ _ h
      · rw [if_pos hex] at h
        exact ⟨_, _, _, (Option.some.inj h).symm⟩

theorem PortSpec.agrees_symm (p q : PortSpec) (h : PortSpec.agrees p q) :
    PortSpec.agrees q p :=
  fun heq => (h heq.symm).symm

/-- A port list in which two mappings disagree is rejected with a conflicting port
mapping. -/
theorem checkPortsValid_of_disagree (challenge : Challenge) (p q : PortSpec)
    (hp : p ∈ challenge.Spec.Network.Ports) (hq : q ∈ challenge.Spec.Network.Ports)
    (hext : resolvedExternalPort p = resolvedExternalPort q)
    (htgt : p.TargetPort.IntVal ≠ q.TargetPort.IntVal) :
    ∃ externalPort existingPort targetPort,
      checkPortsValid challenge =
        some (Error.conflictingPortMapping externalPort existingPort targetPort) := by
  cases h : checkPortsValid challenge with
  | some e =>
    obtain ⟨x, a, b, rfl⟩ := checkPortsLoop_error _ _ _ h
    exact ⟨x, a, b, rfl⟩
  | none =>
    have hpw := ((checkPortsLoop_eq_none_iff _ _).1 h).2
    have hall := List.Pairwise.forall_of_forall PortSpec.agrees_symm
      (fun x _ _ => rfl) hpw
    exact absurd (hall hp hq hext) htgt

/-! ## C1 -/

/-- C1 (evaluation at the failing input): on a port list with two HTTPS entries
(external ports 443 and 444, target ports 8443 and 8444) `checkPortsValid` returns
no error, because `seenHTTPSPort` is never set. -/
theorem checkPortsValid_two_https_accepted :
    (twoHTTPSPorts.Spec.Network.Ports.filter
        (fun port => decide (port.Protocol = "HTTPS"))).length = 2 ∧
      checkPortsValid twoHTTPSPorts = none := by
  decide

/-! ## C2 -/

/-- C2 (counterexample): the port list `[{port 8080, target "http"}, {port 8080,
target "metrics"}]` has two entries with the same resolved external port and
different target ports, and `checkPortsValid` accepts it: it reads only the integer
value of a target port, which is 0 for a named one.  And the port list `[{port 0,
target 0}, {port 0, target 5}]` has one entry with external port 0 and target port
`t = 0` and another with external port `t` and a target port other than `t`, and
`checkPortsValid` accepts it. -/
theorem checkPortsValid_zero_target_accepted :
    ((∃ p ∈ namedTargetPorts.Spec.Network.Ports,
          ∃ q ∈ namedTargetPorts.Spec.Network.Ports,
            resolvedExternalPort p = resolvedExternalPort q ∧
              p.TargetPort ≠ q.TargetPort) ∧
        checkPortsValid namedTargetPorts = none) ∧
      ((∃ p ∈ zeroTargetPorts.Spec.Network.Ports,
          ∃ q ∈ zeroTargetPorts.Spec.Network.Ports,
            p.Port = 0 ∧ q.Port = p.TargetPort.IntVal ∧
              q.TargetPort.IntVal ≠ p.TargetPort.IntVal) ∧
        checkPortsValid zeroTargetPorts = none) := by
  refine ⟨⟨⟨PortSpec.mk "a" 8080 (IntOrString.FromString "http") "TCP", by decide,
      PortSpec.mk "b" 8080 (IntOrString.FromString "metrics") "TCP", by decide,
      by decide⟩, by decide⟩,
    ⟨⟨PortSpec.make "a" "TCP" 0 0, by decide, PortSpec.make "b" "TCP" 0 5,
      by decide, by decide⟩, by decide⟩⟩

/-- C2 (amended): a port list with two entries whose resolved external ports are
equal and whose integer target ports (`TargetPort.IntVal`, which is 0 for a named
target port) differ is rejected with a conflicting-port-mapping error; this
includes the case of one entry with external port 0 and integer target port `t` and
another with external port `t` and an integer target port other than `t`, provided
`t` is not 0.  The resolved external port is the external port, or the integer
target port when the external port is 0. -/
theorem checkPortsValid_conflict (challenge : Challenge) :
    (∀ p q : PortSpec, p ∈ challenge.Spec.Network.Ports →
        q ∈ challenge.Spec.Network.Ports →
        resolvedExternalPort p = resolvedExternalPort q →
        p.TargetPort.IntVal ≠ q.TargetPort.IntVal →
        ∃ externalPort existingPort targetPort,
          checkPortsValid challenge =
            some (Error.conflictingPortMapping externalPort existingPort targetPort)) ∧
      (∀ (p q : PortSpec) (t : Int), p ∈ challenge.Spec.Network.Ports →
        q ∈ challenge.Spec.Network.Ports →
        t ≠ 0 → p.Port = 0 → p.TargetPort.IntVal = t → q.Port = t →
        q.TargetPort.IntVal ≠ t →
        ∃ externalPort existingPort targetPort,
          checkPortsValid challenge =
            some (Error.conflictingPortMapping externalPort existingPort targetPort)) := by
  refine ⟨fun p q hp hq hext htgt => checkPortsValid_of_disagree challenge p q hp hq hext htgt,
    ?_⟩
  intro p q t hp hq ht hp0 hpt hqt hqne
  refine checkPortsValid_of_disagree challenge p q hp hq ?_ ?_
  · simp [resolvedExternalPort, hp0, hpt, hqt, ht]
  · rw [hpt]; exact fun h => hqne h.symm

/-- C2 (witness): `[{port 0, target 1337}, {port 1337, target 80}]` is rejected. -/
theorem checkPortsValid_conflict_witness :
    ∃ externalPort existingPort targetPort,
      checkPortsValid derivedConflictPorts =
        some (Error.conflictingPortMapping externalPort existingPort targetPort) :=
  (checkPortsValid_conflict derivedConflictPorts).2
    (PortSpec.make "a" "TCP" 0 1337) (PortSpec.make "b" "TCP" 1337 80) 1337
    (by decide) (by decide) (by decide) (by decide) (by decide) (by decide) (by decide)

/-! ## C3 -/

/-- C3: a port list in which any two entries with the same resolved external port
have the same target port, and in which at most one entry has protocol HTTPS, passes
`checkPortsValid`. -/
theorem checkPortsValid_ok (challenge : Challenge)
    (hfun : ∀ p ∈ challenge.Spec.Network.Ports, ∀ q ∈ challenge.Spec.Network.Ports,
      resolvedExternalPort p = resolvedExternalPort q →
        p.TargetPort.IntVal = q.TargetPort.IntVal)
    (_hhttps : (challenge.Spec.Network.Ports.filter
      (fun port => decide (port.Protocol = "HTTPS"))).length ≤ 1) :
    checkPortsValid challenge = none := by
  refine (checkPortsLoop_eq_none_iff _ _).2 ⟨?_, ?_⟩
  · intro q _ v hv; simp at hv
  · exact List.pairwise_of_forall_mem_list (fun p hp q hq => hfun p hp q hq)

/-- C3 (witness): a TCP mapping exposed on its target port together with one HTTPS
mapping is accepted. -/
theorem checkPortsValid_ok_witness : checkPortsValid tcpAndHTTPS = none :=
  checkPortsValid_ok tcpAndHTTPS (by decide) (by decide)

/-! ## C7 -/

theorem equalPortsLoop_iff (found : List ServicePort) :
    ∀ wanted : List ServicePort, found.length = wanted.length →
      (equalPortsLoop found wanted = true ↔
        found.map ServicePort.compared = wanted.map ServicePort.compared) := by
  induction found with
  | nil =>
    intro wanted h
    cases wanted with
    | nil => simp [equalPortsLoop]
    | cons w ws => simp at h
  | cons f fs ih =>
    intro wanted h
    cases wanted with
    | nil => simp at h
    | cons w ws =>
      have hlen : fs.length = ws.length := by simpa using h
      by_cases hc : f.Name ≠ w.Name ∨ f.Protocol ≠ w.Protocol ∨ f.Port ≠ w.Port ∨
          f.TargetPort ≠ w.TargetPort
      · have hne : ServicePort.compared f ≠ ServicePort.compared w := by
          intro heq
          simp only [ServicePort.compared, Prod.mk.injEq] at heq
          rcases hc with h1 | h1 | h1 | h1
          · exact h1 heq.1
          · exact h1 heq.2.1
          · exact h1 heq.2.2.1
          · exact h1 heq.2.2.2
        simp [equalPortsLoop, hc, hne]
      · have heq : ServicePort.compared f = ServicePort.compared w := by
          simp only [not_or, not_not] at hc
          simp [ServicePort.compared, hc.1, hc.2.1, hc.2.2.1, hc.2.2.2]
        rw [equalPortsLoop, if_neg hc, ih ws hlen]
        simp [heq]

theorem equalPorts_iff_map (found wanted : List ServicePort) :
    equalPorts found wanted = true ↔
      found.map ServicePort.compared = wanted.map ServicePort.compared := by
  unfold equalPorts
  by_cases hlen : found.length = wanted.length
  · rw [if_neg (not_not.2 hlen)]
    exact equalPortsLoop_iff found wanted hlen
  · rw [if_pos hlen]
    constructor
    · intro h; cases h
    · intro h
      exact absurd (by simpa using congrArg List.length h) hlen

/-- C7: `isServiceEqual` holds exactly when the two port lists have the same length
and agree at every index on name, protocol, port and target port; hence its result
is the same for any two pairs of services whose port lists carry the same values in
these four fields, whatever their other fields are. -/
theorem isServiceEqual_iff (serviceFound serv : Service) :
    (isServiceEqual serviceFound serv = true ↔
      serviceFound.Spec.Ports.length = serv.Spec.Ports.length ∧
        ∀ (i : Nat) (hf : i < serviceFound.Spec.Ports.length)
          (hw : i < serv.Spec.Ports.length),
          serviceFound.Spec.Ports[i].Name = serv.Spec.Ports[i].Name ∧
            serviceFound.Spec.Ports[i].Protocol = serv.Spec.Ports[i].Protocol ∧
            serviceFound.Spec.Ports[i].Port = serv.Spec.Ports[i].Port ∧
            serviceFound.Spec.Ports[i].TargetPort = serv.Spec.Ports[i].TargetPort) ∧
      ∀ serviceFound2 serv2 : Service,
        serviceFound2.Spec.Ports.map ServicePort.compared =
            serviceFound.Spec.Ports.map ServicePort.compared →
          serv2.Spec.Ports.map ServicePort.compared =
            serv.Spec.Ports.map ServicePort.compared →
          isServiceEqual serviceFound2 serv2 = isServiceEqual serviceFound serv := by
  constructor
  · unfold isServiceEqual
    rw [equalPorts_iff_map]
    constructor
    · intro h
      have hlen : serviceFound.Spec.Ports.length = serv.Spec.Ports.length := by
        simpa using congrArg List.length h
      refine ⟨hlen, fun i hf hw => ?_⟩
      have hi : (serviceFound.Spec.Ports.map ServicePort.compared)[i]? =
          (serv.Spec.Ports.map ServicePort.compared)[i]? := by rw [h]
      simp only [List.getElem?_map, List.getElem?_eq_getElem hf,
        List.getElem?_eq_getElem hw, Option.map_some', Option.some.injEq,
        ServicePort.compared, Prod.mk.injEq] at hi
      exact hi
    · rintro ⟨hlen, hall⟩
      apply List.ext_getElem (by simpa using hlen)
      intro i h1 h2
      have hf : i < serviceFound.Spec.Ports.length := by simpa using h1
      have hw : i < serv.Spec.Ports.length := by simpa using h2
      obtain ⟨a, b, c, d⟩ := hall i hf hw
      simp [ServicePort.compared, a, b, c, d]
  · intro s2 t2 h1 h2
    have key : ∀ a b : Service, isServiceEqual a b =
        decide (a.Spec.Ports.map ServicePort.compared =
          b.Spec.Ports.map ServicePort.compared) := by
      intro a b
      rw [Bool.eq_iff_iff]
      unfold isServiceEqual
      rw [equalPorts_iff_map]
      simp
    rw [key, key, h1, h2]

/-! ## C4 -/

/-- C4 (counterexample): on an empty cluster whose client refuses to create the
load-balancer service, the internal-service step reports `changed = true`, the
load-balancer step fails, and `Update` returns `changed = false` with that error. -/
theorem Update_drops_changed_on_error :
    (updateInternalService collaborators (failOn createsLoadBalancer forbidden storeClient)
        tcpOnly (World.fresh emptyCluster)).1 = (true, none) ∧
      (updateLoadBalancerService collaborators
        (failOn createsLoadBalancer forbidden storeClient) tcpOnly
        (updateInternalService collaborators
          (failOn createsLoadBalancer forbidden storeClient) tcpOnly
          (World.fresh emptyCluster)).2).1.2 = some forbidden ∧
      (Update collaborators (failOn createsLoadBalancer forbidden storeClient) tcpOnly
        (World.fresh emptyCluster)).1 = (false, some forbidden) := by
  decide

/-- C4 (amended): when the validation and the three convergence steps return no
error, `Update` returns the logical OR of the three changed flags and no error;
when the validation or a step returns an error, `Update` returns `changed = false`
together with that error, whatever the earlier steps reported. -/
theorem Update_changed {σ : Type} (k : Collaborators σ) (client : Client σ)
    (challenge : Challenge) (w : World σ) :
    (∀ err, checkPortsValid challenge = some err →
        (Update k client challenge w).1 = (false, some err)) ∧
      (checkPortsValid challenge = none →
        (∀ err, (updateInternalService k client challenge w).1.2 = some err →
          (Update k client challenge w).1 = (false, some err)) ∧
        ((updateInternalService k client challenge w).1.2 = none →
          (∀ err, (updateLoadBalancerService k client challenge
              (updateInternalService k client challenge w).2).1.2 = some err →
            (Update k client challenge w).1 = (false, some err)) ∧
          ((updateLoadBalancerService k client challenge
              (updateInternalService k client challenge w).2).1.2 = none →
            (∀ err, (updateIngress k client challenge
                (updateLoadBalancerService k client challenge
                  (updateInternalService k client challenge w).2).2).1.2 = some err →
              (Update k client challenge w).1 = (false, some err)) ∧
            ((updateIngress k client challenge
                (updateLoadBalancerService k client challenge
                  (updateInternalService k client challenge w).2).2).1.2 = none →
              (Update k client challenge w).1 =
                ((updateInternalService k client challenge w).1.1 ||
                  (updateLoadBalancerService k client challenge
                    (updateInternalService k client challenge w).2).1.1 ||
                  (updateIngress k client challenge
                    (updateLoadBalancerService k client challenge
                      (updateInternalService k client challenge w).2).2).1.1,
                  none))))) := by
  refine ⟨fun err h => ?_, fun hv => ⟨fun err h => ?_, fun h1 => ⟨fun err h => ?_,
    fun h2 => ⟨fun err h => ?_, fun h3 => ?_⟩⟩⟩⟩
  · simp [Update, h]
  · simp [Update, hv, h]
  · simp [Update, hv, h1, h]
  · simp [Update, hv, h1, h2, h]
  · simp [Update, hv, h1, h2, h3]

/-! ## C5 -/

/-- C5: when the port list fails `checkPortsValid`, `Update` returns `changed =
false` with the validation error and leaves the world as it was: the trace gains no
call (no get, create, update or delete) and the cluster state is unchanged. -/
theorem Update_invalid_ports {σ : Type} (k : Collaborators σ) (client : Client σ)
    (challenge : Challenge) (w : World σ) (err : Error)
    (h : checkPortsValid challenge = some err) :
    Update k client challenge w = ((false, some err), w) ∧
      issued w (Update k client challenge w).2 = [] := by
  have hu : Update k client challenge w = ((false, some err), w) := by
    simp [Update, h]
  refine ⟨hu, ?_⟩
  rw [hu]
  simp [issued]

/-- C5 (witness): the conflicting list `[{port 0, target 1337}, {port 1337, target
80}]` on the store. -/
theorem Update_invalid_ports_witness :
    Update collaborators storeClient derivedConflictPorts (World.fresh emptyCluster) =
        ((false, some (Error.conflictingPortMapping 1337 1337 80)),
          World.fresh emptyCluster) ∧
      issued (World.fresh emptyCluster)
        (Update collaborators storeClient derivedConflictPorts
          (World.fresh emptyCluster)).2 = [] :=
  Update_invalid_ports collaborators storeClient derivedConflictPorts
    (World.fresh emptyCluster) (Error.conflictingPortMapping 1337 1337 80) (by decide)

/-! ## Exposure policy -/

theorem loadBalancer_policy {σ : Type} (k : Collaborators σ) (client : Client σ)
    (challenge : Challenge) (w : World σ) :
    loadBalancerShouldExist k client challenge w = false ↔
      ((k.generateLoadBalancerService
          (k.GetDomainName challenge
            (clientGetService client
              { Name := challenge.Name ++ "-lb-service",
                Namespace := challenge.Namespace } w).2.cluster)
          challenge).Spec.Ports.length = 0 ∨
        challenge.Spec.Network.Public = false) := by
  simp only [loadBalancerShouldExist, desiredLoadBalancer, loadBalancerKey]
  cases challenge.Spec.Network.Public <;> simp

theorem ingress_policy {σ : Type} (k : Collaborators σ) (client : Client σ)
    (challenge : Challenge) (w : World σ) :
    ingressShouldExist k client challenge w = false ↔
      ((k.generateIngress
          (k.GetDomainName challenge
            (clientGetIngress client
              { Name := challenge.Name, Namespace := challenge.Namespace } w).2.cluster)
          challenge).Spec.Backend = none ∨
        challenge.Spec.Network.Public = false) := by
  simp only [ingressShouldExist, desiredIngress, ingressKey]
  cases challenge.Spec.Network.Public <;> simp

/-! ## C8 -/

/-- C8: when the load-balancer service (resp. the ingress) should not exist, the
converge function issues, after its get, exactly one delete of the observed object
and returns `changed = true` if the get found the object, and issues nothing after
its get and returns `changed = false` with no error if the get reported "not
found"; no create or update is issued in either case. -/
theorem exposure_policy {σ : Type} (k : Collaborators σ) (client : Client σ)
    (challenge : Challenge) (w : World σ) :
    (loadBalancerShouldExist k client challenge w = false →
      (∀ existing : Service,
        (clientGetService client (loadBalancerKey challenge) w).1 = Except.ok existing →
          (updateLoadBalancerService k client challenge w).1.1 = true ∧
            issued w (updateLoadBalancerService k client challenge w).2 =
              [Call.getService (loadBalancerKey challenge),
                Call.delete (Object.service existing)]) ∧
        (∀ err : Error,
          (clientGetService client (loadBalancerKey challenge) w).1 = Except.error err →
            err.IsNotFound = true →
            (updateLoadBalancerService k client challenge w).1 = (false, none) ∧
              issued w (updateLoadBalancerService k client challenge w).2 =
                [Call.getService (loadBalancerKey challenge)])) ∧
      (ingressShouldExist k client challenge w = false →
        (∀ existing : Ingress,
          (clientGetIngress client (ingressKey challenge) w).1 = Except.ok existing →
            (updateIngress k client challenge w).1.1 = true ∧
              issued w (updateIngress k client challenge w).2 =
                [Call.getIngress (ingressKey challenge),
                  Call.delete (Object.ingress existing)]) ∧
          (∀ err : Error,
            (clientGetIngress client (ingressKey challenge) w).1 = Except.error err →
              err.IsNotFound = true →
              (updateIngress k client challenge w).1 = (false, none) ∧
                issued w (updateIngress k client challenge w).2 =
                  [Call.getIngress (ingressKey challenge)])) := by
  refine ⟨fun hp => ⟨fun existing hg => ?_, fun err hg hnf => ?_⟩,
    fun hp => ⟨fun existing hg => ?_, fun err hg hnf => ?_⟩⟩
  · have hp2 := (loadBalancer_policy k client challenge w).1 hp
    simp only [loadBalancerKey] at hg
    simp only [updateLoadBalancerService, hg, if_pos hp2, loadBalancerKey]
    refine ⟨trivial, ?_⟩
    simp [clientDelete, clientGetService, issued]
  · have hp2 := (loadBalancer_policy k client challenge w).1 hp
    simp only [loadBalancerKey] at hg
    simp only [updateLoadBalancerService, hg, if_pos hp2, loadBalancerKey, hnf]
    refine ⟨by simp, ?_⟩
    simp [clientGetService, issued]
  · have hp2 := (ingress_policy k client challenge w).1 hp
    simp only [ingressKey] at hg
    simp only [updateIngress, hg, if_pos hp2, ingressKey]
    refine ⟨trivial, ?_⟩
    simp [clientDelete, clientGetIngress, issued]
  · have hp2 := (ingress_policy k client challenge w).1 hp
    simp only [ingressKey] at hg
    simp only [updateIngress, hg, if_pos hp2, ingressKey, hnf]
    refine ⟨by simp, ?_⟩
    simp [clientGetIngress, issued]

/-! ## C9 -/

/-- C9: for each of the three kinds, when the get finds the object, the resource
should exist and the observed object equals the freshly built desired object under
the comparator of its kind, the converge function returns `changed = false` with no
error and issues nothing after its get: no create, update or delete. -/
theorem converge_equal_noop {σ : Type} (k : Collaborators σ) (client : Client σ)
    (challenge : Challenge) (w : World σ) :
    (∀ existing : Service,
      (clientGetService client (internalServiceKey k challenge) w).1 = Except.ok existing →
        isServiceEqual existing (k.generateNodePortService challenge) = true →
        (updateInternalService k client challenge w).1 = (false, none) ∧
          issued w (updateInternalService k client challenge w).2 =
            [Call.getService (internalServiceKey k challenge)]) ∧
      (∀ existing : Service,
        (clientGetService client (loadBalancerKey challenge) w).1 = Except.ok existing →
          loadBalancerShouldExist k client challenge w = true →
          isServiceEqual existing (desiredLoadBalancer k client challenge w) = true →
          (updateLoadBalancerService k client challenge w).1 = (false, none) ∧
            issued w (updateLoadBalancerService k client challenge w).2 =
              [Call.getService (loadBalancerKey challenge)]) ∧
      (∀ existing : Ingress,
        (clientGetIngress client (ingressKey challenge) w).1 = Except.ok existing →
          ingressShouldExist k client challenge w = true →
          isIngressEqual existing (desiredIngress k client challenge w) = true →
          (updateIngress k client challenge w).1 = (false, none) ∧
            issued w (updateIngress k client challenge w).2 =
              [Call.getIngress (ingressKey challenge)]) := by
  refine ⟨fun existing hg heq => ?_, fun existing hg hp heq => ?_,
    fun existing hg hp heq => ?_⟩
  · simp only [internalServiceKey] at hg
    simp only [updateInternalService, hg, heq, if_true, internalServiceKey]
    refine ⟨trivial, ?_⟩
    simp [clientGetService, issued]
  · have hp2 : ¬ ((k.generateLoadBalancerService
          (k.GetDomainName challenge
            (clientGetService client
              { Name := challenge.Name ++ "-lb-service",
                Namespace := challenge.Namespace } w).2.cluster)
          challenge).Spec.Ports.length = 0 ∨
        challenge.Spec.Network.Public = false) := by
      rw [← loadBalancer_policy]; simp [hp]
    simp only [loadBalancerKey] at hg
    simp only [desiredLoadBalancer, loadBalancerKey] at heq
    simp only [updateLoadBalancerService, hg, if_neg hp2, heq, if_true, loadBalancerKey]
    refine ⟨trivial, ?_⟩
    simp [clientGetService, issued]
  · have hp2 : ¬ ((k.generateIngress
          (k.GetDomainName challenge
            (clientGetIngress client
              { Name := challenge.Name, Namespace := challenge.Namespace } w).2.cluster)
          challenge).Spec.Backend = none ∨
        challenge.Spec.Network.Public = false) := by
      rw [← ingress_policy]; simp [hp]
    simp only [ingressKey] at hg
    simp only [desiredIngress, ingressKey] at heq
    simp only [updateIngress, hg, if_neg hp2, heq, if_true, ingressKey]
    refine ⟨trivial, ?_⟩
    simp [clientGetIngress, issued]

/-! ## C10 -/

/-- C10 (counterexample): on an empty cluster whose client refuses every create,
`updateInternalService` issues a create and returns `changed = false` with the
error of that create. -/
theorem updateInternalService_failed_create :
    (updateInternalService collaborators (failOn isCreate forbidden storeClient) tcpOnly
        (World.fresh emptyCluster)).1 = (false, some forbidden) ∧
      (issued (World.fresh emptyCluster)
        (updateInternalService collaborators (failOn isCreate forbidden storeClient)
          tcpOnly (World.fresh emptyCluster)).2).any Call.isMutating = true := by
  decide

/-- C10 (amended): for `updateLoadBalancerService` and `updateIngress`, and every
behaviour of the client, the changed flag is true exactly when a create, update or
delete was issued, whether that call succeeded or failed; for
`updateInternalService` the changed flag is true exactly when a create or update was
issued and no error is returned, so a create or update that fails yields `changed =
false` with the error. -/
theorem changed_iff_mutating {σ : Type} (k : Collaborators σ) (client : Client σ)
    (challenge : Challenge) (w : World σ) :
    ((updateLoadBalancerService k client challenge w).1.1 = true ↔
        (issued w (updateLoadBalancerService k client challenge w).2).any
          Call.isMutating = true) ∧
      ((updateIngress k client challenge w).1.1 = true ↔
        (issued w (updateIngress k client challenge w).2).any Call.isMutating = true) ∧
      ((updateInternalService k client challenge w).1.1 = true ↔
        ((issued w (updateInternalService k client challenge w).2).any
            Call.isMutating = true ∧
          (updateInternalService k client challenge w).1.2 = none)) := by
  refine ⟨?_, ?_, ?_⟩
  · unfold updateLoadBalancerService
    simp only []
    cases hg : (clientGetService client
        { Name := challenge.Name ++ "-lb-service", Namespace := challenge.Namespace } w).1 with
    | error err =>
      cases hnf : err.IsNotFound
      · simp [hnf, clientGetService, issued, Call.isMutating]
      · simp only [hnf, Bool.true_eq_false, if_false]
        split
        · simp [clientGetService, issued, Call.isMutating]
        · simp [clientGetService, clientCreate, issued, Call.isMutating]
    | ok existing =>
      simp only []
      split
      · simp [clientGetService, clientDelete, issued, Call.isMutating]
      · split
        · simp [clientGetService, issued, Call.isMutating]
        · simp [clientGetService, clientUpdate, issued, Call.isMutating]
  · unfold updateIngress
    simp only []
    cases hg : (clientGetIngress client
        { Name := challenge.Name, Namespace := challenge.Namespace } w).1 with
    | error err =>
      cases hnf : err.IsNotFound
      · simp [hnf, clientGetIngress, issued, Call.isMutating]
      · simp only [hnf, Bool.true_eq_false, if_false]
        split
        · simp [clientGetIngress, issued, Call.isMutating]
        · simp [clientGetIngress, clientCreate, issued, Call.isMutating]
    | ok existing =>
      simp only []
      split
      · simp [clientGetIngress, clientDelete, issued, Call.isMutating]
      · split
        · simp [clientGetIngress, issued, Call.isMutating]
        · simp [clientGetIngress, clientUpdate, issued, Call.isMutating]
  · unfold updateInternalService
    simp only []
    cases hg : (clientGetService client
        { Name := (k.generateNodePortService challenge).ObjectMeta.Name,
          Namespace := (k.generateNodePortService challenge).ObjectMeta.Namespace } w).1 with
    | error err =>
      cases hnf : err.IsNotFound
      · simp [hnf, clientGetService, issued, Call.isMutating]
      · simp only [hnf, Bool.true_eq_false, if_false]
        split
        · simp [clientGetService, clientCreate, issued, Call.isMutating]
        · simp [clientGetService, clientCreate, issued, Call.isMutating]
    | ok existing =>
      simp only []
      split
      · simp [clientGetService, issued, Call.isMutating]
      · split
        · simp [clientGetService, clientUpdate, issued, Call.isMutating]
        · simp [clientGetService, clientUpdate, issued, Call.isMutating]

/-! ## Concrete runs for C8, C9 and C10 -/

/-- C8 (witness): the challenge is no longer public and its load-balancer service is
in the store: `updateLoadBalancerService` deletes it. -/
theorem exposure_policy_witness :
    (updateLoadBalancerService collaborators storeClient tcpPrivate
        (World.fresh clusterAfterTcpOnly)).1.1 = true ∧
      issued (World.fresh clusterAfterTcpOnly)
        (updateLoadBalancerService collaborators storeClient tcpPrivate
          (World.fresh clusterAfterTcpOnly)).2 =
        [Call.getService (loadBalancerKey tcpPrivate),
          Call.delete (Object.service storedLoadBalancer)] :=
  ((exposure_policy collaborators storeClient tcpPrivate
    (World.fresh clusterAfterTcpOnly)).1 (by decide)).1 storedLoadBalancer (by rfl)

/-- C9 (witness): the internal service in the store equals the desired one:
`updateInternalService` only reads it. -/
theorem converge_equal_noop_witness :
    (updateInternalService collaborators storeClient tcpOnly
        (World.fresh clusterAfterTcpOnly)).1 = (false, none) ∧
      issued (World.fresh clusterAfterTcpOnly)
        (updateInternalService collaborators storeClient tcpOnly
          (World.fresh clusterAfterTcpOnly)).2 =
        [Call.getService (internalServiceKey collaborators tcpOnly)] :=
  (converge_equal_noop collaborators storeClient tcpOnly
    (World.fresh clusterAfterTcpOnly)).1 storedInternalService (by rfl) (by decide)

/-- C10 (witness): on an empty cluster whose client refuses every create,
`updateLoadBalancerService` issues a create and returns `changed = true` with the
error of that create. -/
theorem changed_iff_mutating_witness :
    (updateLoadBalancerService collaborators (failOn isCreate forbidden storeClient)
        tcpOnly (World.fresh emptyCluster)).1 = (true, some forbidden) ∧
      ((updateLoadBalancerService collaborators (failOn isCreate forbidden storeClient)
          tcpOnly (World.fresh emptyCluster)).1.1 = true ↔
        (issued (World.fresh emptyCluster)
          (updateLoadBalancerService collaborators (failOn isCreate forbidden storeClient)
            tcpOnly (World.fresh emptyCluster)).2).any Call.isMutating = true) :=
  ⟨by decide, (changed_iff_mutating collaborators (failOn isCreate forbidden storeClient)
    tcpOnly (World.fresh emptyCluster)).1⟩

/-! ## C6 -/

/-- C6 (evaluation at the failing input): the store holds an ingress for the
challenge with a rule the desired ingress does not have.  The first pass of `Update`
completes without error and updates the ingress, copying only the backend; the
second pass, run on the resulting cluster, finds the ingress still different from
the desired one, issues the same update again and returns `changed = true`, leaving
the cluster as the first pass left it. -/
theorem Update_second_pass_updates_again :
    (Update collaborators storeClient httpsOnly (World.fresh clusterWithRule)).1 =
        (true, none) ∧
      (Update collaborators storeClient httpsOnly
        (World.fresh
          (Update collaborators storeClient httpsOnly
            (World.fresh clusterWithRule)).2.cluster)).1 = (true, none) ∧
      (Update collaborators storeClient httpsOnly
        (World.fresh
          (Update collaborators storeClient httpsOnly
            (World.fresh clusterWithRule)).2.cluster)).2.trace.filter Call.isMutating =
        [Call.update (Object.ingress
          { ingressWithRule with
            Spec :=
              { ingressWithRule.Spec with
                Backend := some
                  { ServiceName := "chal", ServicePort := IntOrString.FromInt 8443 } } })] ∧
      (Update collaborators storeClient httpsOnly
        (World.fresh
          (Update collaborators storeClient httpsOnly
            (World.fresh clusterWithRule)).2.cluster)).2.cluster =
        (Update collaborators storeClient httpsOnly (World.fresh clusterWithRule)).2.cluster := by
  decide

/-! ## C13 -/

theorem equalPorts_self (ports : List ServicePort) : equalPorts ports ports = true :=
  (equalPorts_iff_map ports ports).2 rfl

/-- C13: `copyPorts found wanted` has the port list of `wanted` and every other
field of `found` (`wanted` is only read, being a value); hence it is equal to
`wanted` under `isServiceEqual`, and the object a service update sends to the
cluster is the observed service with only its ports (and, for the load-balancer
service, its annotations) replaced by the desired ones. -/
theorem copyPorts_frame {σ : Type} (k : Collaborators σ) (client : Client σ)
    (challenge : Challenge) (w : World σ) (found wanted : Service) :
    ((copyPorts found wanted).Spec.Ports = wanted.Spec.Ports ∧
        (copyPorts found wanted).ObjectMeta = found.ObjectMeta ∧
        (copyPorts found wanted).Spec.ClusterIP = found.Spec.ClusterIP ∧
        (copyPorts found wanted).Spec.Selector = found.Spec.Selector ∧
        (copyPorts found wanted).Spec.Kind = found.Spec.Kind ∧
        (copyPorts found wanted).Status = found.Status ∧
        isServiceEqual (copyPorts found wanted) wanted = true) ∧
      ((clientGetService client (internalServiceKey k challenge) w).1 = Except.ok found →
        isServiceEqual found (k.generateNodePortService challenge) = false →
        issued w (updateInternalService k client challenge w).2 =
          [Call.getService (internalServiceKey k challenge),
            Call.update (Object.service
              { found with
                Spec :=
                  { found.Spec with
                    Ports := (k.generateNodePortService challenge).Spec.Ports } })]) ∧
      ((clientGetService client (loadBalancerKey challenge) w).1 = Except.ok found →
        loadBalancerShouldExist k client challenge w = true →
        isServiceEqual found (desiredLoadBalancer k client challenge w) = false →
        issued w (updateLoadBalancerService k client challenge w).2 =
          [Call.getService (loadBalancerKey challenge),
            Call.update (Object.service
              { found with
                Spec :=
                  { found.Spec with
                    Ports := (desiredLoadBalancer k client challenge w).Spec.Ports }
                ObjectMeta :=
                  { found.ObjectMeta with
                    Annotations :=
                      (desiredLoadBalancer k client challenge w).ObjectMeta.Annotations } })]) := by
  refine ⟨⟨by simp [copyPorts], rfl, rfl, rfl, rfl, rfl, ?_⟩, fun hg hne => ?_,
    fun hg hp hne => ?_⟩
  · simp [isServiceEqual, copyPorts, equalPorts_self]
  · simp only [internalServiceKey] at hg
    simp only [updateInternalService, hg, hne, internalServiceKey, Bool.false_eq_true,
      if_false]
    split <;> simp [clientGetService, clientUpdate, issued, copyPorts]
  · have hp2 : ¬ ((k.generateLoadBalancerService
          (k.GetDomainName challenge
            (clientGetService client
              { Name := challenge.Name ++ "-lb-service",
                Namespace := challenge.Namespace } w).2.cluster)
          challenge).Spec.Ports.length = 0 ∨
        challenge.Spec.Network.Public = false) := by
      rw [← loadBalancer_policy]; simp [hp]
    simp only [loadBalancerKey] at hg
    simp only [desiredLoadBalancer, loadBalancerKey] at hne
    simp only [updateLoadBalancerService, hg, if_neg hp2, hne, loadBalancerKey,
      desiredLoadBalancer]
    simp [clientGetService, clientUpdate, issued, copyPorts]

/-- C13 (witness): the store holds a stale internal service; the update sent is that
service, cluster IP, owner, resource version and status included, with the desired
port list. -/
theorem copyPorts_frame_witness :
    issued (World.fresh clusterWithStaleService)
        (updateInternalService collaborators storeClient tcpOnly
          (World.fresh clusterWithStaleService)).2 =
      [Call.getService (internalServiceKey collaborators tcpOnly),
        Call.update (Object.service
          { staleInternalService with
            Spec :=
              { staleInternalService.Spec with
                Ports := (generateNodePortService tcpOnly).Spec.Ports } })] :=
  (copyPorts_frame collaborators storeClient tcpOnly (World.fresh clusterWithStaleService)
    staleInternalService (generateNodePortService tcpOnly)).2.1 (by rfl) (by decide)

/-! ## C18 -/

/-- C18 (evaluation at the failing input): for the public challenge `httpsOnly`, the
observed ingress `ingressWithRule` and the desired ingress (backend `chal:8443`, no
rules), `updateIngress` sends `sentIngress` to the cluster update, and `sentIngress`
is not equal to the desired ingress under `isIngressEqual`: it still carries the
rule of the observed ingress. -/
theorem updateIngress_sends_unequal :
    (desiredIngress collaborators storeClient httpsOnly
        (World.fresh clusterWithRule)).Spec.Backend =
        some { ServiceName := "chal", ServicePort := IntOrString.FromInt 8443 } ∧
      isIngressEqual ingressWithRule
        (desiredIngress collaborators storeClient httpsOnly
          (World.fresh clusterWithRule)) = false ∧
      issued (World.fresh clusterWithRule)
        (updateIngress collaborators storeClient httpsOnly
          (World.fresh clusterWithRule)).2 =
        [Call.getIngress (ingressKey httpsOnly), Call.update (Object.ingress sentIngress)] ∧
      isIngressEqual sentIngress
        (desiredIngress collaborators storeClient httpsOnly
          (World.fresh clusterWithRule)) = false := by
  decide

/-! ## C19 -/

/-- C19: when the get finds a load-balancer service, the challenge is public and the
desired port list is not empty, then, whatever the annotations of the two services
are: if the observed port list equals the desired one under `isServiceEqual`,
`updateLoadBalancerService` returns `changed = false` with no error and issues
nothing after its get; and it issues an update, the only call that writes the
desired annotations, only when the port lists differ (and never a create). -/
theorem loadBalancer_annotations {σ : Type} (k : Collaborators σ) (client : Client σ)
    (challenge : Challenge) (w : World σ) (existing : Service)
    (hg : (clientGetService client (loadBalancerKey challenge) w).1 = Except.ok existing)
    (hp : loadBalancerShouldExist k client challenge w = true) :
    (isServiceEqual existing (desiredLoadBalancer k client challenge w) = true →
        (updateLoadBalancerService k client challenge w).1 = (false, none) ∧
          issued w (updateLoadBalancerService k client challenge w).2 =
            [Call.getService (loadBalancerKey challenge)]) ∧
      (∀ obj : Object,
        Call.update obj ∈ issued w (updateLoadBalancerService k client challenge w).2 →
          isServiceEqual existing (desiredLoadBalancer k client challenge w) = false) ∧
      (∀ obj : Object,
        Call.create obj ∉ issued w (updateLoadBalancerService k client challenge w).2) := by
  have hp2 : ¬ ((k.generateLoadBalancerService
        (k.GetDomainName challenge
          (clientGetService client
            { Name := challenge.Name ++ "-lb-service",
              Namespace := challenge.Namespace } w).2.cluster)
        challenge).Spec.Ports.length = 0 ∨
      challenge.Spec.Network.Public = false) := by
    rw [← loadBalancer_policy]; simp [hp]
  simp only [loadBalancerKey] at hg
  cases heq : isServiceEqual existing (desiredLoadBalancer k client challenge w) with
  | true =>
    have heq2 := heq
    simp only [desiredLoadBalancer, loadBalancerKey] at heq2
    simp only [updateLoadBalancerService, hg, if_neg hp2, heq2, if_true, loadBalancerKey]
    simp [clientGetService, issued]
  | false =>
    have heq2 := heq
    simp only [desiredLoadBalancer, loadBalancerKey] at heq2
    simp only [updateLoadBalancerService, hg, if_neg hp2, heq2, loadBalancerKey]
    simp [clientGetService, clientUpdate, issued]

/-- C19 (witness): the stored load-balancer service has the desired ports and no
annotations, the desired one carries the host name annotation:
`updateLoadBalancerService` only reads. -/
theorem loadBalancer_annotations_witness :
    storedLoadBalancer.ObjectMeta.Annotations ≠
        (desiredLoadBalancer collaborators storeClient tcpOnly
          (World.fresh clusterWithDomain)).ObjectMeta.Annotations ∧
      (updateLoadBalancerService collaborators storeClient tcpOnly
        (World.fresh clusterWithDomain)).1 = (false, none) ∧
      issued (World.fresh clusterWithDomain)
        (updateLoadBalancerService collaborators storeClient tcpOnly
          (World.fresh clusterWithDomain)).2 =
        [Call.getService (loadBalancerKey tcpOnly)] :=
  ⟨by decide,
    (loadBalancer_annotations collaborators storeClient tcpOnly
      (World.fresh clusterWithDomain) storedLoadBalancer (by rfl) (by decide)).1
      (by decide)⟩

/-! ## The calls of one step: trace, failures and kind -/

theorem updateInternalService_run {σ : Type} (k : Collaborators σ) (client : Client σ)
    (challenge : Challenge) (w : World σ) :
    (updateInternalService k client challenge w).2.trace =
        w.trace ++ issued w (updateInternalService k client challenge w).2 ∧
      clientErrors client (issued w (updateInternalService k client challenge w).2)
          w.cluster =
        ((updateInternalService k client challenge w).1.2.toList,
          (updateInternalService k client challenge w).2.cluster) ∧
      ∀ c ∈ issued w (updateInternalService k client challenge w).2,
        Call.onIngress c = false := by
  unfold updateInternalService
  simp only []
  cases hg : (clientGetService client
      { Name := (k.generateNodePortService challenge).ObjectMeta.Name,
        Namespace := (k.generateNodePortService challenge).ObjectMeta.Namespace } w).1 with
  | error err =>
    have hg2 := hg
    simp only [clientGetService] at hg2
    cases hnf : err.IsNotFound
    · simp [hnf, hg2, clientGetService, issued, clientErrors, Call.perform, Call.onIngress]
    · simp only [hnf, Bool.true_eq_false, if_false]
      split
      · rename_i e he
        simp only [clientCreate, clientGetService] at he
        simp [hnf, hg2, he, clientGetService, clientCreate, issued, clientErrors,
          Call.perform, Call.onIngress]
      · rename_i he
        simp only [clientCreate, clientGetService] at he
        simp [hnf, hg2, he, clientGetService, clientCreate, issued, clientErrors,
          Call.perform, Call.onIngress]
  | ok existing =>
    have hg2 := hg
    simp only [clientGetService] at hg2
    simp only []
    split
    · simp [hg2, clientGetService, issued, clientErrors, Call.perform, Call.onIngress]
    · split
      · rename_i e he
        simp only [clientUpdate, clientGetService] at he
        simp [hg2, he, clientGetService, clientUpdate, issued, clientErrors,
          Call.perform, Call.onIngress]
      · rename_i he
        simp only [clientUpdate, clientGetService] at he
        simp [hg2, he, clientGetService, clientUpdate, issued, clientErrors,
          Call.perform, Call.onIngress]

theorem updateLoadBalancerService_run {σ : Type} (k : Collaborators σ)
    (client : Client σ) (challenge : Challenge) (w : World σ) :
    (updateLoadBalancerService k client challenge w).2.trace =
        w.trace ++ issued w (updateLoadBalancerService k client challenge w).2 ∧
      clientErrors client (issued w (updateLoadBalancerService k client challenge w).2)
          w.cluster =
        ((updateLoadBalancerService k client challenge w).1.2.toList,
          (updateLoadBalancerService k client challenge w).2.cluster) ∧
      ∀ c ∈ issued w (updateLoadBalancerService k client challenge w).2,
        Call.onIngress c = false := by
  unfold updateLoadBalancerService
  simp only []
  cases hg : (clientGetService client
      { Name := challenge.Name ++ "-lb-service", Namespace := challenge.Namespace } w).1 with
  | error err =>
    have hg2 := hg
    simp only [clientGetService] at hg2
    cases hnf : err.IsNotFound
    · simp [hnf, hg2, clientGetService, issued, clientErrors, Call.perform, Call.onIngress]
    · simp only [hnf, Bool.true_eq_false, if_false]
      split
      · simp [hnf, hg2, clientGetService, issued, clientErrors, Call.perform,
          Call.onIngress]
      · simp [hnf, hg2, clientGetService, clientCreate, issued, clientErrors,
          Call.perform, Call.onIngress]
  | ok existing =>
    have hg2 := hg
    simp only [clientGetService] at hg2
    simp only []
    split
    · simp [hg2, clientGetService, clientDelete, issued, clientErrors, Call.perform,
        Call.onIngress]
    · split
      · simp [hg2, clientGetService, issued, clientErrors, Call.perform, Call.onIngress]
      · simp [hg2, clientGetService, clientUpdate, issued, clientErrors, Call.perform,
          Call.onIngress]

theorem updateIngress_run {σ : Type} (k : Collaborators σ) (client : Client σ)
    (challenge : Challenge) (w : World σ) :
    (updateIngress k client challenge w).2.trace =
        w.trace ++ issued w (updateIngress k client challenge w).2 ∧
      clientErrors client (issued w (updateIngress k client challenge w).2) w.cluster =
        ((updateIngress k client challenge w).1.2.toList,
          (updateIngress k client challenge w).2.cluster) ∧
      ∀ c ∈ issued w (updateIngress k client challenge w).2, Call.onIngress c = true := by
  unfold updateIngress
  simp only []
  cases hg : (clientGetIngress client
      { Name := challenge.Name, Namespace := challenge.Namespace } w).1 with
  | error err =>
    have hg2 := hg
    simp only [clientGetIngress] at hg2
    cases hnf : err.IsNotFound
    · simp [hnf, hg2, clientGetIngress, issued, clientErrors, Call.perform, Call.onIngress]
    · simp only [hnf, Bool.true_eq_false, if_false]
      split
      · simp [hnf, hg2, clientGetIngress, issued, clientErrors, Call.perform,
          Call.onIngress]
      · simp [hnf, hg2, clientGetIngress, clientCreate, issued, clientErrors,
          Call.perform, Call.onIngress]
  | ok existing =>
    have hg2 := hg
    simp only [clientGetIngress] at hg2
    simp only []
    split
    · simp [hg2, clientGetIngress, clientDelete, issued, clientErrors, Call.perform,
        Call.onIngress]
    · split
      · simp [hg2, clientGetIngress, issued, clientErrors, Call.perform, Call.onIngress]
      · simp [hg2, clientGetIngress, clientUpdate, issued, clientErrors, Call.perform,
          Call.onIngress]

theorem clientErrors_append {σ : Type} (client : Client σ) (l1 : List Call) :
    ∀ (l2 : List Call) (s : σ),
      clientErrors client (l1 ++ l2) s =
        ((clientErrors client l1 s).1 ++
            (clientErrors client l2 (clientErrors client l1 s).2).1,
          (clientErrors client l2 (clientErrors client l1 s).2).2) := by
  induction l1 with
  | nil => intro l2 s; simp [clientErrors]
  | cons c cs ih => intro l2 s; simp [clientErrors, ih, List.append_assoc]

theorem issued_trans {σ : Type} (w w1 w2 : World σ) (l1 l2 : List Call)
    (h1 : w1.trace = w.trace ++ l1) (h2 : w2.trace = w1.trace ++ l2) :
    issued w w1 = l1 ∧ issued w1 w2 = l2 ∧ issued w w2 = l1 ++ l2 := by
  simp [issued, h1, h2, List.append_assoc]

/-! ## C12 -/

/-- C12: after a successful validation `Update` runs the internal-service step, then
the load-balancer step, then the ingress step.  When the internal-service step
returns an error, `Update` returns that error and the calls it issued are those of
that step alone; when the load-balancer step returns an error, `Update` returns that
error and issued the calls of the first two steps, none of which concerns an
ingress; otherwise the calls are those of the three steps in this order and the
error is that of the ingress step.  The first two steps issue no ingress call and
the ingress step issues only ingress calls. -/
theorem Update_short_circuit {σ : Type} (k : Collaborators σ) (client : Client σ)
    (challenge : Challenge) (w : World σ) (hv : checkPortsValid challenge = none) :
    (∀ err, (internalStep k client challenge w).1.2 = some err →
        Update k client challenge w =
            ((false, some err), (internalStep k client challenge w).2) ∧
          issued w (Update k client challenge w).2 =
            issued w (internalStep k client challenge w).2) ∧
      ((internalStep k client challenge w).1.2 = none →
        ∀ err, (loadBalancerStep k client challenge w).1.2 = some err →
          Update k client challenge w =
              ((false, some err), (loadBalancerStep k client challenge w).2) ∧
            issued w (Update k client challenge w).2 =
              issued w (internalStep k client challenge w).2 ++
                issued (internalStep k client challenge w).2
                  (loadBalancerStep k client challenge w).2 ∧
            ∀ c ∈ issued w (Update k client challenge w).2, Call.onIngress c = false) ∧
      ((internalStep k client challenge w).1.2 = none →
        (loadBalancerStep k client challenge w).1.2 = none →
          (Update k client challenge w).1.2 = (ingressStep k client challenge w).1.2 ∧
            (Update k client challenge w).2 = (ingressStep k client challenge w).2 ∧
            issued w (Update k client challenge w).2 =
              issued w (internalStep k client challenge w).2 ++
                issued (internalStep k client challenge w).2
                  (loadBalancerStep k client challenge w).2 ++
                issued (loadBalancerStep k client challenge w).2
                  (ingressStep k client challenge w).2) ∧
      (∀ c ∈ issued w (internalStep k client challenge w).2, Call.onIngress c = false) ∧
      (∀ c ∈ issued (internalStep k client challenge w).2
          (loadBalancerStep k client challenge w).2, Call.onIngress c = false) ∧
      (∀ c ∈ issued (loadBalancerStep k client challenge w).2
          (ingressStep k client challenge w).2, Call.onIngress c = true) := by
  have hi := updateInternalService_run k client challenge w
  have hl := updateLoadBalancerService_run k client challenge
    (internalStep k client challenge w).2
  have hg := updateIngress_run k client challenge (loadBalancerStep k client challenge w).2
  have t1 := issued_trans w (internalStep k client challenge w).2
    (loadBalancerStep k client challenge w).2 _ _ hi.1 hl.1
  have t2 := issued_trans w (loadBalancerStep k client challenge w).2
    (ingressStep k client challenge w).2 _ _
    (by rw [show (loadBalancerStep k client challenge w).2.trace = _ from hl.1,
      show (internalStep k client challenge w).2.trace = _ from hi.1,
      List.append_assoc]) hg.1
  refine ⟨fun err h => ?_, fun h1 err h => ?_, fun h1 h2 => ?_, hi.2.2, hl.2.2, hg.2.2⟩
  · have hu : Update k client challenge w =
        ((false, some err), (internalStep k client challenge w).2) := by
      simp only [internalStep] at h
      simp [Update, hv, h, internalStep]
    exact ⟨hu, by rw [hu]⟩
  · have hu : Update k client challenge w =
        ((false, some err), (loadBalancerStep k client challenge w).2) := by
      simp only [internalStep, loadBalancerStep] at h h1
      simp [Update, hv, h1, h, internalStep, loadBalancerStep]
    refine ⟨hu, ?_, ?_⟩
    · rw [hu]; exact t1.2.2
    · rw [hu]
      intro c hc
      rw [show issued w (loadBalancerStep k client challenge w).2 = _ from t1.2.2] at hc
      rcases List.mem_append.1 hc with hc | hc
      · exact hi.2.2 c hc
      · exact hl.2.2 c hc
  · have hu : (Update k client challenge w).1.2 = (ingressStep k client challenge w).1.2 ∧
        (Update k client challenge w).2 = (ingressStep k client challenge w).2 := by
      simp only [internalStep, loadBalancerStep] at h1 h2
      simp only [Update, hv, h1, h2, ingressStep, loadBalancerStep, internalStep]
      cases h3 : (updateIngress k client challenge
        (updateLoadBalancerService k client challenge
          (updateInternalService k client challenge w).2).2).1.2 <;> simp
    refine ⟨hu.1, hu.2, ?_⟩
    rw [hu.2, t2.2.2]
    rfl

/-- C12 (witness): the client refuses every create, so the internal-service step
fails on an empty cluster: `Update` returns its error after the get and the create
of the internal service, and nothing else is issued. -/
theorem Update_short_circuit_witness :
    Update collaborators (failOn isCreate forbidden storeClient) tcpOnly
          (World.fresh emptyCluster) =
        ((false, some forbidden),
          (internalStep collaborators (failOn isCreate forbidden storeClient) tcpOnly
            (World.fresh emptyCluster)).2) ∧
      issued (World.fresh emptyCluster)
          (Update collaborators (failOn isCreate forbidden storeClient) tcpOnly
            (World.fresh emptyCluster)).2 =
        issued (World.fresh emptyCluster)
          (internalStep collaborators (failOn isCreate forbidden storeClient) tcpOnly
            (World.fresh emptyCluster)).2 :=
  (Update_short_circuit collaborators (failOn isCreate forbidden storeClient) tcpOnly
    (World.fresh emptyCluster) (by decide)).1 forbidden (by decide)

/-! ## C11 -/

/-- The failures with which the client answered the calls of one run of `Update` are
the error `Update` returns, if any. -/
theorem Update_clientErrors {σ : Type} (k : Collaborators σ) (client : Client σ)
    (challenge : Challenge) (w : World σ) (hv : checkPortsValid challenge = none) :
    (clientErrors client (issued w (Update k client challenge w).2) w.cluster).1 =
      (Update k client challenge w).1.2.toList := by
  have hi := updateInternalService_run k client challenge w
  have hl := updateLoadBalancerService_run k client challenge
    (updateInternalService k client challenge w).2
  have hg := updateIngress_run k client challenge
    (updateLoadBalancerService k client challenge
      (updateInternalService k client challenge w).2).2
  have t1 := issued_trans w (updateInternalService k client challenge w).2
    (updateLoadBalancerService k client challenge
      (updateInternalService k client challenge w).2).2 _ _ hi.1 hl.1
  have t2 := issued_trans w
    (updateLoadBalancerService k client challenge
      (updateInternalService k client challenge w).2).2
    (updateIngress k client challenge
      (updateLoadBalancerService k client challenge
        (updateInternalService k client challenge w).2).2).2 _ _
    (by rw [hl.1, hi.1, List.append_assoc]) hg.1
  cases h1 : (updateInternalService k client challenge w).1.2 with
  | some e =>
    have hu : Update k client challenge w =
        ((false, some e), (updateInternalService k client challenge w).2) := by
      simp [Update, hv, h1]
    rw [hu, hi.2.1, h1]
  | none =>
    cases h2 : (updateLoadBalancerService k client challenge
        (updateInternalService k client challenge w).2).1.2 with
    | some e =>
      have hu : Update k client challenge w =
          ((false, some e), (updateLoadBalancerService k client challenge
            (updateInternalService k client challenge w).2).2) := by
        simp [Update, hv, h1, h2]
      rw [hu]
      simp only []
      rw [t1.2.2, clientErrors_append, hi.2.1, h1]
      simp only []
      rw [hl.2.1, h2]
      simp
    | none =>
      have hu : (Update k client challenge w).1.2 =
            (updateIngress k client challenge
              (updateLoadBalancerService k client challenge
                (updateInternalService k client challenge w).2).2).1.2 ∧
          (Update k client challenge w).2 =
            (updateIngress k client challenge
              (updateLoadBalancerService k client challenge
                (updateInternalService k client challenge w).2).2).2 := by
        simp only [Update, hv, h1, h2]
        cases h3 : (updateIngress k client challenge
          (updateLoadBalancerService k client challenge
            (updateInternalService k client challenge w).2).2).1.2 <;> simp
      rw [hu.1, hu.2, t2.2.2, clientErrors_append, clientErrors_append, hi.2.1, h1]
      simp only []
      rw [hl.2.1, h2]
      simp only []
      rw [hg.2.1]
      simp

/-- C11 (counterexample): the ownership setter returns an error on every object, and
`Update` on an empty store creates the internal service and the load-balancer
service and returns no error. -/
theorem Update_swallows_owner_error :
    (collaboratorsUnregistered.SetControllerReference tcpOnly
        (collaboratorsUnregistered.generateNodePortService tcpOnly).ObjectMeta).2 =
        some (Error.other "no kind is registered") ∧
      (Update collaboratorsUnregistered storeClient tcpOnly (World.fresh emptyCluster)).1 =
        (true, none) ∧
      ((Update collaboratorsUnregistered storeClient tcpOnly
        (World.fresh emptyCluster)).2.trace.filter isCreate).length = 2 := by
  decide

/-- C11 (amended): every failure with which the cluster client answers a call of a
run of `Update` (a get failing with anything other than not-found, a create, an
update or a delete) is the error `Update` returns; the error of the ownership
setter is not among them, the converge functions drop it. -/
theorem Update_surfaces_client_errors {σ : Type} (k : Collaborators σ)
    (client : Client σ) (challenge : Challenge) (w : World σ) (err : Error)
    (h : err ∈ (clientErrors client (issued w (Update k client challenge w).2)
      w.cluster).1) :
    (Update k client challenge w).1.2 = some err := by
  cases hv : checkPortsValid challenge with
  | some e =>
    have hu : Update k client challenge w = ((false, some e), w) := by
      simp [Update, hv]
    rw [hu] at h
    simp [issued, clientErrors] at h
  | none =>
    rw [Update_clientErrors k client challenge w hv] at h
    cases hr : (Update k client challenge w).1.2 with
    | none => rw [hr] at h; simp at h
    | some e =>
      rw [hr] at h
      simp at h
      rw [h]

/-- C11 (witness): the client refuses to create the load-balancer service; that
failure is what `Update` returns. -/
theorem Update_surfaces_client_errors_witness :
    (Update collaborators (failOn createsLoadBalancer forbidden storeClient) tcpOnly
      (World.fresh emptyCluster)).1.2 = some forbidden :=
  Update_surfaces_client_errors collaborators
    (failOn createsLoadBalancer forbidden storeClient) tcpOnly (World.fresh emptyCluster)
    forbidden (by decide)

/-! ## C16 -/

theorem updateInternalService_ownership {σ : Type} (k : Collaborators σ)
    (client : Client σ) (challenge : Challenge) (w : World σ) :
    (∀ obj : Object, Call.create obj ∈ issued w (updateInternalService k client challenge w).2 →
        obj = Object.service
          { k.generateNodePortService challenge with
            ObjectMeta := (k.SetControllerReference challenge
              (k.generateNodePortService challenge).ObjectMeta).1 }) ∧
      (∀ obj : Object,
        Call.update obj ∈ issued w (updateInternalService k client challenge w).2 →
          ∃ existing : Service,
            (clientGetService client (internalServiceKey k challenge) w).1 =
                Except.ok existing ∧
              obj.ObjectMeta.OwnerReferences = existing.ObjectMeta.OwnerReferences) ∧
      (∀ obj : Object,
        Call.delete obj ∉ issued w (updateInternalService k client challenge w).2) ∧
      ((∀ obj : Object,
          Call.create obj ∉ issued w (updateInternalService k client challenge w).2) →
        ∀ setter : Challenge → ObjectMeta → ObjectMeta × Option Error,
          updateInternalService (withOwnerSetter k setter) client challenge w =
            updateInternalService k client challenge w) := by
  simp only [internalServiceKey]
  unfold updateInternalService
  simp only [withOwnerSetter]
  cases hg : (clientGetService client
      { Name := (k.generateNodePortService challenge).ObjectMeta.Name,
        Namespace := (k.generateNodePortService challenge).ObjectMeta.Namespace } w).1 with
  | error err =>
    cases hnf : err.IsNotFound
    · simp [hnf, clientGetService, issued]
    · simp only [hnf, Bool.true_eq_false, if_false]
      split <;> simp [clientGetService, clientCreate, issued]
  | ok existing =>
    simp only []
    split
    · simp [clientGetService, issued]
    · split <;>
        simp [clientGetService, clientUpdate, issued, copyPorts, Object.ObjectMeta]

theorem updateLoadBalancerService_ownership {σ : Type} (k : Collaborators σ)
    (client : Client σ) (challenge : Challenge) (w : World σ) :
    (∀ obj : Object,
        Call.create obj ∈ issued w (updateLoadBalancerService k client challenge w).2 →
          obj = Object.service
            { desiredLoadBalancer k client challenge w with
              ObjectMeta := (k.SetControllerReference challenge
                (desiredLoadBalancer k client challenge w).ObjectMeta).1 }) ∧
      (∀ obj : Object,
        Call.update obj ∈ issued w (updateLoadBalancerService k client challenge w).2 →
          ∃ existing : Service,
            (clientGetService client (loadBalancerKey challenge) w).1 = Except.ok existing ∧
              obj.ObjectMeta.OwnerReferences = existing.ObjectMeta.OwnerReferences) ∧
      (∀ obj : Object,
        Call.delete obj ∈ issued w (updateLoadBalancerService k client challenge w).2 →
          ∃ existing : Service,
            (clientGetService client (loadBalancerKey challenge) w).1 = Except.ok existing ∧
              obj = Object.service existing) ∧
      ((∀ obj : Object,
          Call.create obj ∉ issued w (updateLoadBalancerService k client challenge w).2) →
        ∀ setter : Challenge → ObjectMeta → ObjectMeta × Option Error,
          updateLoadBalancerService (withOwnerSetter k setter) client challenge w =
            updateLoadBalancerService k client challenge w) := by
  simp only [loadBalancerKey, desiredLoadBalancer]
  unfold updateLoadBalancerService
  simp only [withOwnerSetter]
  cases hg : (clientGetService client
      { Name := challenge.Name ++ "-lb-service", Namespace := challenge.Namespace } w).1 with
  | error err =>
    cases hnf : err.IsNotFound
    · simp [hnf, clientGetService, issued]
    · simp only [hnf, Bool.true_eq_false, if_false]
      split <;> simp [clientGetService, clientCreate, issued]
  | ok existing =>
    simp only []
    split
    · simp [clientGetService, clientDelete, issued]
    · split <;>
        simp [clientGetService, clientUpdate, issued, copyPorts, Object.ObjectMeta]

theorem updateIngress_ownership {σ : Type} (k : Collaborators σ)
    (client : Client σ) (challenge : Challenge) (w : World σ) :
    (∀ obj : Object, Call.create obj ∈ issued w (updateIngress k client challenge w).2 →
        obj = Object.ingress
          { desiredIngress k client challenge w with
            ObjectMeta := (k.SetControllerReference challenge
              (desiredIngress k client challenge w).ObjectMeta).1 }) ∧
      (∀ obj : Object, Call.update obj ∈ issued w (updateIngress k client challenge w).2 →
        ∃ existing : Ingress,
          (clientGetIngress client (ingressKey challenge) w).1 = Except.ok existing ∧
            obj.ObjectMeta.OwnerReferences = existing.ObjectMeta.OwnerReferences) ∧
      (∀ obj : Object, Call.delete obj ∈ issued w (updateIngress k client challenge w).2 →
        ∃ existing : Ingress,
          (clientGetIngress client (ingressKey challenge) w).1 = Except.ok existing ∧
            obj = Object.ingress existing) ∧
      ((∀ obj : Object, Call.create obj ∉ issued w (updateIngress k client challenge w).2) →
        ∀ setter : Challenge → ObjectMeta → ObjectMeta × Option Error,
          updateIngress (withOwnerSetter k setter) client challenge w =
            updateIngress k client challenge w) := by
  simp only [ingressKey, desiredIngress]
  unfold updateIngress
  simp only [withOwnerSetter]
  cases hg : (clientGetIngress client
      { Name := challenge.Name, Namespace := challenge.Namespace } w).1 with
  | error err =>
    cases hnf : err.IsNotFound
    · simp [hnf, clientGetIngress, issued]
    · simp only [hnf, Bool.true_eq_false, if_false]
      split <;> simp [clientGetIngress, clientCreate, issued]
  | ok existing =>
    simp only []
    split
    · simp [clientGetIngress, clientDelete, issued]
    · split <;>
        simp [clientGetIngress, clientUpdate, issued, Object.ObjectMeta]

/-- C16 (counterexample): the ownership setter fails and leaves the object as it is;
`updateInternalService` on an empty store drops the error and issues the create for
the desired service, whose owner references are empty: a create is issued and no
ownership reference is set. -/
theorem create_without_owner :
    (collaboratorsUnregistered.SetControllerReference tcpOnly
        (generateNodePortService tcpOnly).ObjectMeta).2 =
        some (Error.other "no kind is registered") ∧
      issued (World.fresh emptyCluster)
        (updateInternalService collaboratorsUnregistered storeClient tcpOnly
          (World.fresh emptyCluster)).2 =
        [Call.getService (internalServiceKey collaboratorsUnregistered tcpOnly),
          Call.create (Object.service (generateNodePortService tcpOnly))] ∧
      (generateNodePortService tcpOnly).ObjectMeta.OwnerReferences = [] := by
  decide

/-- C16 (amended): in every run of each of the three converge functions, an object
sent to a create is the desired object with the metadata the ownership setter
returned for it with the challenge as owner argument; an object sent to an update
has the owner references of the observed object and an object sent to a delete is
the observed object (the internal service is never deleted); a run that issues no
create does not depend on the ownership setter at all: with any other setter it
returns the same result and leaves the same world; the two comparators do not read
the metadata of the observed object, its owner references included; and, for a
setter that records its owner argument whenever it returns no error, a created
object carries the challenge in its owner references whenever the setter returned
no error for it (when the setter returns an error the error is dropped and the
object is created all the same, with the metadata the setter left). -/
theorem ownership_only_on_create {σ : Type} (k : Collaborators σ) (client : Client σ)
    (challenge : Challenge) (w : World σ) :
    ((∀ obj : Object, Call.create obj ∈ issued w (updateInternalService k client challenge w).2 →
          obj = Object.service
            { k.generateNodePortService challenge with
              ObjectMeta := (k.SetControllerReference challenge
                (k.generateNodePortService challenge).ObjectMeta).1 }) ∧
        (∀ obj : Object,
          Call.update obj ∈ issued w (updateInternalService k client challenge w).2 →
            ∃ existing : Service,
              (clientGetService client (internalServiceKey k challenge) w).1 =
                  Except.ok existing ∧
                obj.ObjectMeta.OwnerReferences = existing.ObjectMeta.OwnerReferences) ∧
        (∀ obj : Object,
          Call.delete obj ∉ issued w (updateInternalService k client challenge w).2) ∧
        ((∀ obj : Object,
            Call.create obj ∉ issued w (updateInternalService k client challenge w).2) →
          ∀ setter : Challenge → ObjectMeta → ObjectMeta × Option Error,
            updateInternalService (withOwnerSetter k setter) client challenge w =
              updateInternalService k client challenge w)) ∧
    ((∀ obj : Object,
          Call.create obj ∈ issued w (updateLoadBalancerService k client challenge w).2 →
            obj = Object.service
              { desiredLoadBalancer k client challenge w with
                ObjectMeta := (k.SetControllerReference challenge
                  (desiredLoadBalancer k client challenge w).ObjectMeta).1 }) ∧
        (∀ obj : Object,
          Call.update obj ∈ issued w (updateLoadBalancerService k client challenge w).2 →
            ∃ existing : Service,
              (clientGetService client (loadBalancerKey challenge) w).1 = Except.ok existing ∧
                obj.ObjectMeta.OwnerReferences = existing.ObjectMeta.OwnerReferences) ∧
        (∀ obj : Object,
          Call.delete obj ∈ issued w (updateLoadBalancerService k client challenge w).2 →
            ∃ existing : Service,
              (clientGetService client (loadBalancerKey challenge) w).1 = Except.ok existing ∧
                obj = Object.service existing) ∧
        ((∀ obj : Object,
            Call.create obj ∉ issued w (updateLoadBalancerService k client challenge w).2) →
          ∀ setter : Challenge → ObjectMeta → ObjectMeta × Option Error,
            updateLoadBalancerService (withOwnerSetter k setter) client challenge w =
              updateLoadBalancerService k client challenge w)) ∧
    ((∀ obj : Object, Call.create obj ∈ issued w (updateIngress k client challenge w).2 →
          obj = Object.ingress
            { desiredIngress k client challenge w with
              ObjectMeta := (k.SetControllerReference challenge
                (desiredIngress k client challenge w).ObjectMeta).1 }) ∧
        (∀ obj : Object, Call.update obj ∈ issued w (updateIngress k client challenge w).2 →
          ∃ existing : Ingress,
            (clientGetIngress client (ingressKey challenge) w).1 = Except.ok existing ∧
              obj.ObjectMeta.OwnerReferences = existing.ObjectMeta.OwnerReferences) ∧
        (∀ obj : Object, Call.delete obj ∈ issued w (updateIngress k client challenge w).2 →
          ∃ existing : Ingress,
            (clientGetIngress client (ingressKey challenge) w).1 = Except.ok existing ∧
              obj = Object.ingress existing) ∧
        ((∀ obj : Object, Call.create obj ∉ issued w (updateIngress k client challenge w).2) →
          ∀ setter : Challenge → ObjectMeta → ObjectMeta × Option Error,
            updateIngress (withOwnerSetter k setter) client challenge w =
              updateIngress k client challenge w)) ∧
    (∀ (found serv : Service) (m : ObjectMeta),
      isServiceEqual { found with ObjectMeta := m } serv = isServiceEqual found serv) ∧
    (∀ (found ingress : Ingress) (m : ObjectMeta),
      isIngressEqual { found with ObjectMeta := m } ingress =
        isIngressEqual found ingress) ∧
    ((∀ (owner : Challenge) (m : ObjectMeta),
        (k.SetControllerReference owner m).2 = none →
          owner.Name ∈ (k.SetControllerReference owner m).1.OwnerReferences) →
      (∀ obj : Object,
        Call.create obj ∈ issued w (updateInternalService k client challenge w).2 →
          (k.SetControllerReference challenge
            (k.generateNodePortService challenge).ObjectMeta).2 = none →
          challenge.Name ∈ obj.ObjectMeta.OwnerReferences) ∧
        (∀ obj : Object,
          Call.create obj ∈ issued w (updateLoadBalancerService k client challenge w).2 →
            (k.SetControllerReference challenge
              (desiredLoadBalancer k client challenge w).ObjectMeta).2 = none →
            challenge.Name ∈ obj.ObjectMeta.OwnerReferences) ∧
        (∀ obj : Object,
          Call.create obj ∈ issued w (updateIngress k client challenge w).2 →
            (k.SetControllerReference challenge
              (desiredIngress k client challenge w).ObjectMeta).2 = none →
            challenge.Name ∈ obj.ObjectMeta.OwnerReferences)) :=
  ⟨updateInternalService_ownership k client challenge w,
    updateLoadBalancerService_ownership k client challenge w,
    updateIngress_ownership k client challenge w,
    fun _ _ _ => rfl, fun _ _ _ => rfl,
    fun hset =>
      ⟨fun obj h hok => by
          rw [(updateInternalService_ownership k client challenge w).1 obj h]
          exact hset _ _ hok,
        fun obj h hok => by
          rw [(updateLoadBalancerService_ownership k client challenge w).1 obj h]
          exact hset _ _ hok,
        fun obj h hok => by
          rw [(updateIngress_ownership k client challenge w).1 obj h]
          exact hset _ _ hok⟩⟩

theorem SetControllerReference_records (owner : Challenge) (m : ObjectMeta)
    (h : (SetControllerReference owner m).2 = none) :
    owner.Name ∈ (SetControllerReference owner m).1.OwnerReferences := by
  unfold SetControllerReference at h ⊢
  split
  · simp
  · rename_i hne
    rw [if_neg hne] at h
    cases h

/-- C16 (witness): on an empty store the internal service is created, the setter
returns no error for it, and the created service names the challenge `chal` in its
owner references. -/
theorem ownership_only_on_create_witness :
    issued (World.fresh emptyCluster)
        (updateInternalService collaborators storeClient tcpOnly
          (World.fresh emptyCluster)).2 =
        [Call.getService (internalServiceKey collaborators tcpOnly),
          Call.create (Object.service storedInternalService)] ∧
      tcpOnly.Name ∈ (Object.service storedInternalService).ObjectMeta.OwnerReferences :=
  ⟨by decide,
    ((ownership_only_on_create collaborators storeClient tcpOnly
      (World.fresh emptyCluster)).2.2.2.2.2
      (fun owner m h => SetControllerReference_records owner m h)).1
      (Object.service storedInternalService) (by decide) (by decide)⟩

/-! ## Healthcheck injection: lemmas -/

theorem assignAt_of_eq (containers : List Container) (i : Int) (n : Nat)
    (f : Container → Container) (hi : i = (n : Int)) (hn : n < containers.length) :
    assignAt containers i f = some (containers.modify f n) := by
  subst hi
  have h : (0 : Int) ≤ (n : Int) ∧ (n : Int) < (containers.length : Int) :=
    ⟨Int.ofNat_nonneg n, by exact_mod_cast hn⟩
  simp [assignAt, h]

theorem assignAt_negative (containers : List Container) (f : Container → Container) :
    assignAt containers (-1) f = none := by
  simp [assignAt]

theorem IndexOfContainer_of_lt (name : String) (containers : List Container)
    (h : firstNamed name containers < containers.length) :
    IndexOfContainer name containers = (firstNamed name containers : Int) := by
  simp only [firstNamed] at h
  simp [IndexOfContainer, firstNamed, h]

theorem IndexOfContainer_of_not_lt (name : String) (containers : List Container)
    (h : ¬ firstNamed name containers < containers.length) :
    IndexOfContainer name containers = -1 := by
  simp only [firstNamed] at h
  simp only [IndexOfContainer, if_neg h]

theorem firstNamed_lt_iff (name : String) (containers : List Container) :
    firstNamed name containers < containers.length ↔
      ∃ c ∈ containers, c.Name = name := by
  simp [firstNamed]

theorem modify_length_append (f : Container → Container) (a : Container)
    (l : List Container) : (l ++ [a]).modify f l.length = l ++ [f a] := by
  induction l with
  | nil => simp
  | cons x xs ih => simp [ih]

theorem withProbes_comp :
    ((fun c : Container =>
        { c with
          ReadinessProbe := some
            { Handler :=
                { Exec := none
                  HTTPGet := some { Path := "/healthz", Port := IntOrString.FromInt 45281 }
                  TCPSocket := none }
              InitialDelaySeconds := 5
              TimeoutSeconds := 3
              PeriodSeconds := 5
              SuccessThreshold := 0
              FailureThreshold := 0 } }) ∘
      (fun c : Container =>
        { c with
          LivenessProbe := some
            { Handler :=
                { Exec := none
                  HTTPGet := some { Path := "/healthz", Port := IntOrString.FromInt 45281 }
                  TCPSocket := none }
              InitialDelaySeconds := 45
              TimeoutSeconds := 3
              PeriodSeconds := 30
              SuccessThreshold := 0
              FailureThreshold := 2 } })) = withProbes := by
  funext c
  rfl

theorem configured_comp (image : String) :
    (((fun c : Container =>
        { c with
          VolumeMounts :=
            [{ Name := "pow-bypass", ReadOnly := true, MountPath := "/pow-bypass",
               SubPath := "" }] }) ∘
      (fun c : Container =>
        { c with
          Resources :=
            { Limits := [("cpu", Quantity.NewMilliQuantity 1000 "DecimalSI")]
              Requests := [("cpu", Quantity.NewMilliQuantity 50 "DecimalSI")] } })) ∘
      (fun c : Container => { c with Image := image })) = configured image := by
  funext c
  rfl

/-- With a challenge container in the base deployment, `withHealthcheck` returns the
base deployment with the container list `injected` and one more volume. -/
theorem withHealthcheck_of_challenge (deployment : Challenge → Deployment)
    (challenge : Challenge)
    (h : firstNamed "challenge" (deployment challenge).Spec.Template.Spec.Containers <
      (deployment challenge).Spec.Template.Spec.Containers.length) :
    withHealthcheck deployment challenge =
      some
        { deployment challenge with
          Spec :=
            { (deployment challenge).Spec with
              Template :=
                { (deployment challenge).Spec.Template with
                  Spec :=
                    { (deployment challenge).Spec.Template.Spec with
                      Containers := injected challenge.Spec.Healthcheck.Image
                        (deployment challenge).Spec.Template.Spec.Containers
                      Volumes := (deployment challenge).Spec.Template.Spec.Volumes ++
                        [{ Name := "pow-bypass"
                           VolumeSource :=
                             { Secret := some { SecretName := "pow-bypass" },
                               ConfigMap := none } }] } } } } := by
  unfold withHealthcheck
  simp only []
  rw [IndexOfContainer_of_lt _ _ h, assignAt_of_eq _ _ _ _ rfl h, Option.some_bind,
    assignAt_of_eq _ _ _ _ rfl (by simpa using h), Option.some_bind,
    List.modify_modify_eq, withProbes_comp]
  by_cases hh : firstNamed "healthcheck" (deployment challenge).Spec.Template.Spec.Containers <
      (deployment challenge).Spec.Template.Spec.Containers.length
  · have hne : ¬ ((firstNamed "healthcheck"
        (deployment challenge).Spec.Template.Spec.Containers : Int) = -1) := by omega
    rw [IndexOfContainer_of_lt _ _ hh]
    simp only [if_neg hne]
    rw [assignAt_of_eq _ _ _ _ rfl (by simpa using hh), Option.some_bind,
      assignAt_of_eq _ _ _ _ rfl (by simpa using hh), Option.some_bind,
      assignAt_of_eq _ _ _ _ rfl (by simpa using hh), Option.some_bind,
      List.modify_modify_eq, List.modify_modify_eq, configured_comp]
    simp [injected, hh]
  · rw [IndexOfContainer_of_not_lt _ _ hh]
    simp only [if_true]
    have hidx : ((((deployment challenge).Spec.Template.Spec.Containers.modify withProbes
        (firstNamed "challenge" (deployment challenge).Spec.Template.Spec.Containers) ++
          [Container.named "healthcheck"]).length : Int) - 1) =
        ((((deployment challenge).Spec.Template.Spec.Containers.modify withProbes
          (firstNamed "challenge"
            (deployment challenge).Spec.Template.Spec.Containers)).length : Nat) : Int) := by
      simp
    rw [assignAt_of_eq _ _ _ _ hidx (by simp), Option.some_bind,
      assignAt_of_eq _ _ _ _ hidx (by simp), Option.some_bind,
      assignAt_of_eq _ _ _ _ hidx (by simp), Option.some_bind,
      List.modify_modify_eq, List.modify_modify_eq, configured_comp,
      modify_length_append]
    simp [injected, hh]

/-- Without a challenge container in the base deployment, `withHealthcheck` panics. -/
theorem withHealthcheck_of_no_challenge (deployment : Challenge → Deployment)
    (challenge : Challenge)
    (h : ¬ firstNamed "challenge" (deployment challenge).Spec.Template.Spec.Containers <
      (deployment challenge).Spec.Template.Spec.Containers.length) :
    withHealthcheck deployment challenge = none := by
  unfold withHealthcheck
  simp only []
  rw [IndexOfContainer_of_not_lt _ _ h, assignAt_negative]
  rfl

theorem getElem?_firstNamed (name : String) (containers : List Container)
    (h : firstNamed name containers < containers.length) :
    ∃ c, containers[firstNamed name containers]? = some c ∧ c.Name = name := by
  refine ⟨containers[firstNamed name containers], List.getElem?_eq_getElem h, ?_⟩
  have hp := @List.findIdx_getElem Container (fun c : Container => decide (c.Name = name))
    containers h
  simpa [firstNamed] using hp

theorem name_of_getElem?_firstNamed (name : String) (containers : List Container)
    (c : Container) (h : containers[firstNamed name containers]? = some c) :
    c.Name = name := by
  have hlt : firstNamed name containers < containers.length := by
    by_contra hge
    rw [List.getElem?_eq_none (Nat.le_of_not_lt hge)] at h
    cases h
  obtain ⟨c2, h2, hn⟩ := getElem?_firstNamed name containers hlt
  rw [h] at h2
  cases h2
  exact hn

theorem firstNamed_le (name : String) (containers : List Container) :
    firstNamed name containers ≤ containers.length :=
  List.findIdx_le_length _

theorem injected_length (image : String) (containers : List Container) :
    (injected image containers).length =
      if firstNamed "healthcheck" containers < containers.length then containers.length
      else containers.length + 1 := by
  unfold injected
  split <;> simp

/-- The container `injected` has at an index of the base list: the base container,
changed by `withProbes` at the challenge index and by `configured` at the
healthcheck index. -/
theorem injected_getElem? (image : String) (containers : List Container) (i : Nat)
    (c : Container) (h : containers[i]? = some c) :
    (injected image containers)[i]? =
      some (if firstNamed "healthcheck" containers = i then
          configured image (if firstNamed "challenge" containers = i then withProbes c else c)
        else if firstNamed "challenge" containers = i then withProbes c else c) := by
  have hi : i < containers.length := by
    by_contra hge
    rw [List.getElem?_eq_none (Nat.le_of_not_lt hge)] at h
    cases h
  unfold injected
  by_cases hh : firstNamed "healthcheck" containers < containers.length
  · rw [if_pos hh, List.getElem?_modify, List.getElem?_modify, h]
    by_cases h1 : firstNamed "healthcheck" containers = i <;>
      by_cases h2 : firstNamed "challenge" containers = i <;> simp [h1, h2]
  · have hne : firstNamed "healthcheck" containers ≠ i := by
      have := firstNamed_le "healthcheck" containers
      omega
    rw [if_neg hh, List.getElem?_append_left (by simpa using hi), List.getElem?_modify, h]
    by_cases h2 : firstNamed "challenge" containers = i <;> simp [hne, h2]

/-- The list `injected` has a container named healthcheck that went through
`configured`. -/
theorem injected_has_healthcheck (image : String) (containers : List Container) :
    ∃ c0 : Container, c0.Name = "healthcheck" ∧ configured image c0 ∈ injected image containers := by
  by_cases hh : firstNamed "healthcheck" containers < containers.length
  · obtain ⟨c, hc, hn⟩ := getElem?_firstNamed "healthcheck" containers hh
    have hne : firstNamed "challenge" containers ≠ firstNamed "healthcheck" containers := by
      intro heq
      rw [← heq] at hc
      have := name_of_getElem?_firstNamed "challenge" containers c hc
      rw [hn] at this
      exact absurd this (by decide)
    have hg := injected_getElem? image containers _ c hc
    simp only [if_true, if_neg hne] at hg
    exact ⟨c, hn, List.getElem?_mem hg⟩
  · refine ⟨Container.named "healthcheck", rfl, ?_⟩
    unfold injected
    rw [if_neg hh]
    simp

/-! ## C15 -/

/-- C15: `withHealthcheck` returns a deployment exactly when the base deployment has
a container named challenge.  When it has one, the challenge index is within the
bounds of the container list, and so is the healthcheck index: either the lookup
found a container, at an index within bounds, or it yielded -1 and the returned
list is one longer than the base list, so that its length minus one is the index of
the appended container.  When it has none, the lookup yields -1 and the function
panics. -/
theorem withHealthcheck_returns_iff (deployment : Challenge → Deployment)
    (challenge : Challenge) :
    ((∃ d, withHealthcheck deployment challenge = some d) ↔
        ∃ c ∈ (deployment challenge).Spec.Template.Spec.Containers, c.Name = "challenge") ∧
      ((∃ c ∈ (deployment challenge).Spec.Template.Spec.Containers, c.Name = "challenge") →
        (0 ≤ IndexOfContainer "challenge"
              (deployment challenge).Spec.Template.Spec.Containers ∧
            IndexOfContainer "challenge"
                (deployment challenge).Spec.Template.Spec.Containers <
              ((deployment challenge).Spec.Template.Spec.Containers.length : Int)) ∧
          ((IndexOfContainer "healthcheck"
                (deployment challenge).Spec.Template.Spec.Containers = -1 ∧
              ∀ d, withHealthcheck deployment challenge = some d →
                d.Spec.Template.Spec.Containers.length =
                  (deployment challenge).Spec.Template.Spec.Containers.length + 1) ∨
            (0 ≤ IndexOfContainer "healthcheck"
                (deployment challenge).Spec.Template.Spec.Containers ∧
              IndexOfContainer "healthcheck"
                  (deployment challenge).Spec.Template.Spec.Containers <
                ((deployment challenge).Spec.Template.Spec.Containers.length : Int) ∧
              ∀ d, withHealthcheck deployment challenge = some d →
                d.Spec.Template.Spec.Containers.length =
                  (deployment challenge).Spec.Template.Spec.Containers.length))) ∧
      ((¬ ∃ c ∈ (deployment challenge).Spec.Template.Spec.Containers,
            c.Name = "challenge") →
        IndexOfContainer "challenge"
            (deployment challenge).Spec.Template.Spec.Containers = -1 ∧
          withHealthcheck deployment challenge = none) := by
  refine ⟨?_, fun hc => ?_, fun hc => ?_⟩
  · constructor
    · rintro ⟨d, hd⟩
      by_contra hno
      rw [← firstNamed_lt_iff] at hno
      rw [withHealthcheck_of_no_challenge deployment challenge hno] at hd
      cases hd
    · intro hc
      rw [← firstNamed_lt_iff] at hc
      exact ⟨_, withHealthcheck_of_challenge deployment challenge hc⟩
  · rw [← firstNamed_lt_iff] at hc
    refine ⟨?_, ?_⟩
    · rw [IndexOfContainer_of_lt _ _ hc]
      exact ⟨Int.ofNat_nonneg _, by exact_mod_cast hc⟩
    · by_cases hh : firstNamed "healthcheck"
          (deployment challenge).Spec.Template.Spec.Containers <
          (deployment challenge).Spec.Template.Spec.Containers.length
      · right
        rw [IndexOfContainer_of_lt _ _ hh]
        refine ⟨Int.ofNat_nonneg _, by exact_mod_cast hh, fun d hd => ?_⟩
        rw [withHealthcheck_of_challenge deployment challenge hc] at hd
        cases hd
        simp [injected_length, hh]
      · left
        refine ⟨IndexOfContainer_of_not_lt _ _ hh, fun d hd => ?_⟩
        rw [withHealthcheck_of_challenge deployment challenge hc] at hd
        cases hd
        simp [injected_length, hh]
  · rw [← firstNamed_lt_iff] at hc
    exact ⟨IndexOfContainer_of_not_lt _ _ hc,
      withHealthcheck_of_no_challenge deployment challenge hc⟩

/-- C15 (witness): a base deployment whose only container is named proxy makes
`withHealthcheck` panic. -/
theorem withHealthcheck_returns_iff_witness :
    IndexOfContainer "challenge"
        (baseWithoutChallenge withImage).Spec.Template.Spec.Containers = -1 ∧
      withHealthcheck baseWithoutChallenge withImage = none :=
  (withHealthcheck_returns_iff baseWithoutChallenge withImage).2.2 (by decide)

/-! ## C17 -/

/-- C17: for a base deployment with a challenge container, the volume list of the
deployment `withHealthcheck` returns is the base volume list followed by one volume
named pow-bypass sourced from the secret pow-bypass; and the returned deployment has
a container named healthcheck whose only volume mount is pow-bypass, a volume of
the returned pod spec. -/
theorem withHealthcheck_volumes (deployment : Challenge → Deployment)
    (challenge : Challenge)
    (hc : ∃ c ∈ (deployment challenge).Spec.Template.Spec.Containers,
      c.Name = "challenge") :
    ∃ d, withHealthcheck deployment challenge = some d ∧
      d.Spec.Template.Spec.Volumes =
        (deployment challenge).Spec.Template.Spec.Volumes ++
          [{ Name := "pow-bypass"
             VolumeSource :=
               { Secret := some { SecretName := "pow-bypass" }, ConfigMap := none } }] ∧
      ∃ hcContainer ∈ d.Spec.Template.Spec.Containers,
        hcContainer.Name = "healthcheck" ∧
          hcContainer.VolumeMounts =
            [{ Name := "pow-bypass", ReadOnly := true, MountPath := "/pow-bypass",
               SubPath := "" }] ∧
          ∀ m ∈ hcContainer.VolumeMounts,
            ∃ v ∈ d.Spec.Template.Spec.Volumes, v.Name = m.Name := by
  rw [← firstNamed_lt_iff] at hc
  refine ⟨_, withHealthcheck_of_challenge deployment challenge hc, rfl, ?_⟩
  obtain ⟨c0, hn, hmem⟩ := injected_has_healthcheck challenge.Spec.Healthcheck.Image
    (deployment challenge).Spec.Template.Spec.Containers
  refine ⟨configured challenge.Spec.Healthcheck.Image c0, hmem, hn, rfl, ?_⟩
  intro m hm
  simp only [configured, List.mem_singleton] at hm
  subst hm
  exact ⟨_, List.mem_append_right _ (List.mem_singleton.2 rfl), rfl⟩

/-- C17 (witness): the base deployment with the volume data gets the volumes data
and pow-bypass. -/
theorem withHealthcheck_volumes_witness :
    ∃ d, withHealthcheck baseDeployment withImage = some d ∧
      d.Spec.Template.Spec.Volumes =
        (baseDeployment withImage).Spec.Template.Spec.Volumes ++
          [{ Name := "pow-bypass"
             VolumeSource :=
               { Secret := some { SecretName := "pow-bypass" }, ConfigMap := none } }] ∧
      ∃ hcContainer ∈ d.Spec.Template.Spec.Containers,
        hcContainer.Name = "healthcheck" ∧
          hcContainer.VolumeMounts =
            [{ Name := "pow-bypass", ReadOnly := true, MountPath := "/pow-bypass",
               SubPath := "" }] ∧
          ∀ m ∈ hcContainer.VolumeMounts,
            ∃ v ∈ d.Spec.Template.Spec.Volumes, v.Name = m.Name :=
  withHealthcheck_volumes baseDeployment withImage
    ⟨challengeContainer, by decide, by decide⟩

/-! ## C14 -/

/-- C14: for a base deployment with a container named challenge and none named
healthcheck, `withHealthcheck` returns a deployment whose container list is the base
list, every container at its index and unchanged except the (first) challenge
container, followed by one new container named healthcheck with the healthcheck
image of the challenge, CPU request 50m, CPU limit 1000m and the single read-only
volume mount pow-bypass at /pow-bypass; the challenge container is the base one with
the liveness probe (HTTP GET /healthz on port 45281, failure threshold 2, initial
delay 45, timeout 3, period 30) and the readiness probe (HTTP GET /healthz on port
45281, initial delay 5, timeout 3, period 5). -/
theorem withHealthcheck_injects (deployment : Challenge → Deployment)
    (challenge : Challenge)
    (hc : ∃ c ∈ (deployment challenge).Spec.Template.Spec.Containers,
      c.Name = "challenge")
    (hno : ∀ c ∈ (deployment challenge).Spec.Template.Spec.Containers,
      c.Name ≠ "healthcheck") :
    ∃ d, withHealthcheck deployment challenge = some d ∧
      d.Spec.Template.Spec.Containers.length =
        (deployment challenge).Spec.Template.Spec.Containers.length + 1 ∧
      (∀ (i : Nat) (c : Container),
        (deployment challenge).Spec.Template.Spec.Containers[i]? = some c →
          i ≠ firstNamed "challenge" (deployment challenge).Spec.Template.Spec.Containers →
          d.Spec.Template.Spec.Containers[i]? = some c) ∧
      (∃ c : Container,
        (deployment challenge).Spec.Template.Spec.Containers[
            firstNamed "challenge" (deployment challenge).Spec.Template.Spec.Containers]? =
          some c ∧
        c.Name = "challenge" ∧
        d.Spec.Template.Spec.Containers[
            firstNamed "challenge" (deployment challenge).Spec.Template.Spec.Containers]? =
          some
            { c with
              LivenessProbe := some
                { Handler :=
                    { Exec := none
                      HTTPGet := some
                        { Path := "/healthz", Port := IntOrString.FromInt 45281 }
                      TCPSocket := none }
                  InitialDelaySeconds := 45
                  TimeoutSeconds := 3
                  PeriodSeconds := 30
                  SuccessThreshold := 0
                  FailureThreshold := 2 }
              ReadinessProbe := some
                { Handler :=
                    { Exec := none
                      HTTPGet := some
                        { Path := "/healthz", Port := IntOrString.FromInt 45281 }
                      TCPSocket := none }
                  InitialDelaySeconds := 5
                  TimeoutSeconds := 3
                  PeriodSeconds := 5
                  SuccessThreshold := 0
                  FailureThreshold := 0 } }) ∧
      d.Spec.Template.Spec.Containers[
          (deployment challenge).Spec.Template.Spec.Containers.length]? =
        some
          { Name := "healthcheck"
            Image := challenge.Spec.Healthcheck.Image
            Command := []
            Args := []
            Env := []
            Resources :=
              { Limits := [("cpu", { MilliValue := 1000, Format := "DecimalSI" })]
                Requests := [("cpu", { MilliValue := 50, Format := "DecimalSI" })] }
            VolumeMounts :=
              [{ Name := "pow-bypass", ReadOnly := true, MountPath := "/pow-bypass",
                 SubPath := "" }]
            LivenessProbe := none
            ReadinessProbe := none } := by
  have hh : ¬ firstNamed "healthcheck" (deployment challenge).Spec.Template.Spec.Containers <
      (deployment challenge).Spec.Template.Spec.Containers.length := by
    rw [firstNamed_lt_iff]
    rintro ⟨c, hm, hn⟩
    exact hno c hm hn
  have hfh : firstNamed "healthcheck" (deployment challenge).Spec.Template.Spec.Containers =
      (deployment challenge).Spec.Template.Spec.Containers.length :=
    Nat.le_antisymm (firstNamed_le _ _) (Nat.le_of_not_lt hh)
  rw [← firstNamed_lt_iff] at hc
  refine ⟨_, withHealthcheck_of_challenge deployment challenge hc, ?_, ?_, ?_, ?_⟩
  · simp [injected_length, hh]
  · intro i c hi hne
    have hlt : i < (deployment challenge).Spec.Template.Spec.Containers.length := by
      by_contra hge
      rw [List.getElem?_eq_none (Nat.le_of_not_lt hge)] at hi
      cases hi
    have h1 : firstNamed "healthcheck"
        (deployment challenge).Spec.Template.Spec.Containers ≠ i := by omega
    show (injected _ _)[i]? = some c
    rw [injected_getElem? _ _ i c hi, if_neg h1, if_neg (Ne.symm hne)]
  · obtain ⟨c, hget, hn⟩ := getElem?_firstNamed "challenge" _ hc
    refine ⟨c, hget, hn, ?_⟩
    have h1 : firstNamed "healthcheck"
          (deployment challenge).Spec.Template.Spec.Containers ≠
        firstNamed "challenge" (deployment challenge).Spec.Template.Spec.Containers := by
      omega
    show (injected _ _)[_]? = _
    rw [injected_getElem? _ _ _ c hget, if_neg h1, if_pos rfl]
    rfl
  · show (injected _ _)[_]? = _
    unfold injected
    rw [if_neg hh, List.getElem?_append_right (by simp)]
    simp [configured, Container.named, Quantity.NewMilliQuantity]

/-- C14 (witness): the base deployment with the containers proxy and challenge. -/
theorem withHealthcheck_injects_witness :
    ∃ d, withHealthcheck baseDeployment withImage = some d ∧
      d.Spec.Template.Spec.Containers.map (fun c => (c.Name, c.Image)) =
        [("proxy", ""), ("challenge", "chal:1"), ("healthcheck", "hc:1")] := by
  obtain ⟨d, hd, _⟩ := withHealthcheck_injects baseDeployment withImage
    ⟨challengeContainer, by decide, by decide⟩ (by decide)
  refine ⟨d, hd, ?_⟩
  have hv : withHealthcheck baseDeployment withImage =
      some ((withHealthcheck baseDeployment withImage).getD (baseDeployment withImage)) := by
    decide
  rw [hv] at hd
  cases hd
  decide

/-! ## C20 -/

/-- C20: for a base deployment with a challenge container, in the deployment
`withHealthcheck` returns every container named neither challenge nor healthcheck is
at its index and unchanged; a container named challenge is at its index and differs
from the base one at most in its two probes; and when the base has a container
named healthcheck, the number of containers is unchanged and a container named
healthcheck is at its index and differs from the base one at most in its image,
resources and volume mounts. -/
theorem withHealthcheck_frame (deployment : Challenge → Deployment)
    (challenge : Challenge)
    (hc : ∃ c ∈ (deployment challenge).Spec.Template.Spec.Containers,
      c.Name = "challenge") :
    ∃ d, withHealthcheck deployment challenge = some d ∧
      (∀ (i : Nat) (c : Container),
        (deployment challenge).Spec.Template.Spec.Containers[i]? = some c →
          c.Name ≠ "challenge" → c.Name ≠ "healthcheck" →
          d.Spec.Template.Spec.Containers[i]? = some c) ∧
      (∀ (i : Nat) (c : Container),
        (deployment challenge).Spec.Template.Spec.Containers[i]? = some c →
          c.Name = "challenge" →
          ∃ c2 : Container, d.Spec.Template.Spec.Containers[i]? = some c2 ∧
            { c2 with LivenessProbe := none, ReadinessProbe := none } =
              { c with LivenessProbe := none, ReadinessProbe := none }) ∧
      ((∃ c ∈ (deployment challenge).Spec.Template.Spec.Containers,
          c.Name = "healthcheck") →
        d.Spec.Template.Spec.Containers.length =
            (deployment challenge).Spec.Template.Spec.Containers.length ∧
          ∀ (i : Nat) (c : Container),
            (deployment challenge).Spec.Template.Spec.Containers[i]? = some c →
              c.Name = "healthcheck" →
              ∃ c2 : Container, d.Spec.Template.Spec.Containers[i]? = some c2 ∧
                { c2 with
                    Image := "", Resources := { Limits := [], Requests := [] },
                    VolumeMounts := [] } =
                  { c with
                    Image := "", Resources := { Limits := [], Requests := [] },
                    VolumeMounts := [] }) := by
  rw [← firstNamed_lt_iff] at hc
  refine ⟨_, withHealthcheck_of_challenge deployment challenge hc, ?_, ?_, ?_⟩
  · intro i c hi h1 h2
    have n1 : firstNamed "challenge"
        (deployment challenge).Spec.Template.Spec.Containers ≠ i := by
      intro heq
      rw [← heq] at hi
      exact h1 (name_of_getElem?_firstNamed _ _ c hi)
    have n2 : firstNamed "healthcheck"
        (deployment challenge).Spec.Template.Spec.Containers ≠ i := by
      intro heq
      rw [← heq] at hi
      exact h2 (name_of_getElem?_firstNamed _ _ c hi)
    show (injected _ _)[i]? = some c
    rw [injected_getElem? _ _ i c hi, if_neg n2, if_neg n1]
  · intro i c hi h1
    have n2 : firstNamed "healthcheck"
        (deployment challenge).Spec.Template.Spec.Containers ≠ i := by
      intro heq
      rw [← heq] at hi
      have := name_of_getElem?_firstNamed _ _ c hi
      rw [h1] at this
      exact absurd this (by decide)
    refine ⟨if firstNamed "challenge"
        (deployment challenge).Spec.Template.Spec.Containers = i then withProbes c else c,
      ?_, ?_⟩
    · show (injected _ _)[i]? = _
      rw [injected_getElem? _ _ i c hi, if_neg n2]
    · split <;> rfl
  · intro hex
    rw [← firstNamed_lt_iff] at hex
    refine ⟨by simp [injected_length, hex], ?_⟩
    intro i c hi h1
    have n1 : firstNamed "challenge"
        (deployment challenge).Spec.Template.Spec.Containers ≠ i := by
      intro heq
      rw [← heq] at hi
      have := name_of_getElem?_firstNamed _ _ c hi
      rw [h1] at this
      exact absurd this (by decide)
    refine ⟨if firstNamed "healthcheck"
        (deployment challenge).Spec.Template.Spec.Containers = i then
          configured challenge.Spec.Healthcheck.Image c else c,
      ?_, ?_⟩
    · show (injected _ _)[i]? = _
      rw [injected_getElem? _ _ i c hi]
      simp only [if_neg n1]
    · split <;> rfl

/-- C20 (witness): the base deployment that already has a healthcheck container
keeps its two containers; the healthcheck container keeps its command. -/
theorem withHealthcheck_frame_witness :
    ∃ d, withHealthcheck baseWithHealthcheck withImage = some d ∧
      d.Spec.Template.Spec.Containers.map (fun c => (c.Name, c.Image, c.Command)) =
        [("healthcheck", "hc:1", ["/check"]), ("challenge", "chal:1", ["/run"])] := by
  obtain ⟨d, hd, _⟩ := withHealthcheck_frame baseWithHealthcheck withImage
    ⟨challengeContainer, by decide, by decide⟩
  refine ⟨d, hd, ?_⟩
  have hv : withHealthcheck baseWithHealthcheck withImage =
      some ((withHealthcheck baseWithHealthcheck withImage).getD
        (baseWithHealthcheck withImage)) := by
    decide
  rw [hv] at hd
  cases hd
  decide

end Kctf
